import Mathlib

/-!
Verification of the Ostium service adapter core (ostium-service repository).

Shallow embedding of:
- `app/services/ostium/base.py` (`BaseManager`: idempotency cache, SDK error
  normalization, SDK construction checks),
- `app/services/ostium/market_manager.py` (`MarketManager`: pair catalog fetch
  with fallback, pair id/symbol resolution, price fetch),
- `app/services/ostium/trading_manager.py` (`TradingManager`: open/close
  position, update stop-loss / take-profit),
- `app/middleware/hmac_auth.py` (`HmacAuthMiddleware.dispatch`).

Modelling conventions:
- Python `float` values (prices, leverage, collateral) are modelled as `Rat`;
  no verified claim depends on binary floating-point rounding.
- Python exceptions raised by the remote SDK are modelled by their message
  string (`Except String _` for remote call outcomes); `OstiumServiceError`
  is the structured error the service itself raises.
- `time.time()` (seconds) is an `Int` parameter; each adapter call is modelled
  at a single instant.
- Remote SDK interactions are recorded in an explicit trace so that claims
  about "no remote call is made" / "only the first call submits" are statable.
- Logging and the optional `set_slippage_percentage` side effect are not
  modelled (they do not affect control flow or results).
-/

namespace OstiumService

/-- Whether `pat` occurs at the head of `s` (on character lists). -/
def charsStartWith : List Char → List Char → Bool
  | [], _ => true
  | _ :: _, [] => false
  | a :: pat, b :: s => a = b && charsStartWith pat s

/-- Whether `pat` occurs somewhere in `s` (on character lists). -/
def charsContain (s pat : List Char) : Bool :=
  match s with
  | [] => pat.isEmpty
  | _ :: rest => charsStartWith pat s || charsContain rest pat

/-- Python substring test `pat in s` (on already-lowercased strings). -/
def containsSub (s pat : String) : Bool :=
  charsContain s.data pat.data

/-- Python `str.lower()` (character-wise, as for the ASCII error messages the
code matches on). Defined over the character list so that it evaluates inside
the kernel. -/
def lowerStr (s : String) : String :=
  ⟨s.data.map Char.toLower⟩

/-- Python `str.upper()` (character-wise). -/
def upperStr (s : String) : String :=
  ⟨s.data.map Char.toUpper⟩

/-- Python `str.strip()`: drop surrounding whitespace. -/
def pyStrip (s : String) : String :=
  ⟨((s.data.dropWhile Char.isWhitespace).reverse.dropWhile Char.isWhitespace).reverse⟩

/-- Does `s` start with `pat` (Python `str.startswith`)? -/
def pyStartsWith (s pat : String) : Bool :=
  charsStartWith pat.data s.data

/-- Decimal value of a digit string. -/
def digitsToNat (l : List Char) : Nat :=
  l.foldl (fun acc c => acc * 10 + (c.toNat - 48)) 0

/-- Parse a non-empty all-digit character list. -/
def parseDigits (l : List Char) : Option Nat :=
  if !l.isEmpty && l.all Char.isDigit then some (digitsToNat l) else none

/-- The `OstiumServiceError` dataclass from `app/services/ostium/base.py`.
`details: dict[str, Any]` is modelled as an association list of string pairs
(the code only ever stores string values there). -/
structure OstiumServiceError where
  code : String
  message : String
  status_code : Nat := 400
  retryable : Option Bool := none
  details : Option (List (String × String)) := none
deriving DecidableEq, Repr

/-- Model of `BaseManager._normalize_sdk_error`: substring-pattern classification of a
raw SDK exception message, checked in source order, first match wins.
`excMsg` is `str(exc)`. -/
def normalize_sdk_error (operation default_code default_message excMsg : String) :
    OstiumServiceError :=
  let raw_error := excMsg
  let lower_error := lowerStr raw_error
  let details := some [("error", raw_error), ("operation", operation)]
  if containsSub lower_error "sufficient allowance" || containsSub lower_error "allowance for" then
    { code := "ALLOWANCE_MISSING"
      message := "Sufficient allowance not present. Approve the trading contract to spend USDC."
      status_code := 400, retryable := some false, details := details }
  else if containsSub lower_error "delegation is not active" || containsSub lower_error "delegation not active" then
    { code := "DELEGATION_NOT_ACTIVE"
      message := "Delegation is not active. Approve delegation before write actions."
      status_code := 400, retryable := some false, details := details }
  else if containsSub lower_error "safe wallet not found" then
    { code := "SAFE_WALLET_MISSING"
      message := "Safe wallet not found for selected network."
      status_code := 400, retryable := some false, details := details }
  else if containsSub lower_error "delegate wallet gas is low" || containsSub lower_error "insufficient funds for gas" then
    { code := "DELEGATE_GAS_LOW"
      message := "Delegate wallet gas is low. Fund delegate wallet with ETH."
      status_code := 400, retryable := some false, details := details }
  else if containsSub lower_error "timeout" || containsSub lower_error "timed out" then
    { code := "OSTIUM_SERVICE_TIMEOUT"
      message := "Ostium service timed out."
      status_code := 504, retryable := some true, details := details }
  else
    { code := default_code, message := default_message
      status_code := 502, retryable := some true, details := details }

/-! ## Idempotency cache (`BaseManager._idempotency_get` / `_idempotency_set`)

The Python cache is `dict[str, tuple[float, dict]]`; it is modelled as a
finite map from key to (creation time in seconds, stored payload). The
payload type is abstract here (instantiated below with the adapter
response values). -/

/-- The cache `dict[str, tuple[float, dict]]`, modelled with its dictionary
semantics: a finite map from key to (`created_at` in seconds, stored
payload). Reading the map at a key is `dict.get(key)`. -/
abbrev CacheMap (α : Type) := String → Option (Int × α)

/-- The empty cache (a fresh manager instance). -/
def emptyCache {α : Type} : CacheMap α := fun _ => none

/-- Python `dict[key] = value` (unconditional overwrite, like the Python dict). -/
def cacheInsert {α : Type} (c : CacheMap α) (k : String) (v : Int × α) : CacheMap α :=
  fun k' => if k' = k then some v else c k'

/-- Python `dict.pop(key, None)`. -/
def cacheErase {α : Type} (c : CacheMap α) (k : String) : CacheMap α :=
  fun k' => if k' = k then none else c k'

/-- Model of `BaseManager._idempotency_get`. Returns the payload (if present and not
older than 3600 seconds) together with the possibly-updated cache (an expired
entry is popped on access). `key` is `str | None`; in Python `if not key`
treats both `None` and the empty string as absent. -/
def idempotency_get {α : Type} (now : Int) (c : CacheMap α) (key : Option String) :
    Option α × CacheMap α :=
  match key with
  | none => (none, c)
  | some k =>
    if k = "" then (none, c)
    else
      match c k with
      | none => (none, c)
      | some (created_at, payload) =>
        if now - created_at > 3600 then (none, cacheErase c k)
        else (some payload, c)

/-- Model of `BaseManager._idempotency_set`: stores `(time.time(), payload)` under the
key, unconditionally overwriting; a falsy key stores nothing. -/
def idempotency_set {α : Type} (now : Int) (c : CacheMap α) (key : Option String)
    (payload : α) : CacheMap α :=
  match key with
  | none => c
  | some k => if k = "" then c else cacheInsert c k (now, payload)

/-! ## Settings and SDK construction checks (`BaseManager`) -/

/-- The slice of `app/config.py` `Settings` used by the managers.
`sdkImported` models `OstiumSDK is not None` (import success at module load);
an unconfigured delegate key / HMAC secret is the empty string (Python
truthiness: `if not self._settings....`). -/
structure Settings where
  ostium_enabled : Bool
  sdkImported : Bool
  ostium_testnet_rpc_url : String
  ostium_mainnet_rpc_url : String
  ostium_delegate_private_key : String
deriving DecidableEq, Repr

/-- Model of `BaseManager._network_rpc`. -/
def network_rpc (st : Settings) (network : String) : Except OstiumServiceError String :=
  if network = "testnet" then .ok st.ostium_testnet_rpc_url
  else if network = "mainnet" then .ok st.ostium_mainnet_rpc_url
  else .error { code := "INVALID_NETWORK", message := "network must be testnet or mainnet"
                status_code := 400, retryable := some false }

/-- Model of `BaseManager._build_sdk`: the checks performed before an SDK object is
constructed (the SDK object itself carries no state the claims need, so the
success value is `Unit`). -/
def build_sdk (st : Settings) (network : String) : Except OstiumServiceError Unit :=
  if !st.ostium_enabled then
    .error { code := "OSTIUM_DISABLED", message := "Ostium is disabled by configuration"
             status_code := 503, retryable := some false }
  else if !st.sdkImported then
    .error { code := "SDK_UNAVAILABLE", message := "Ostium SDK is not available in runtime"
             status_code := 503, retryable := some false }
  else
    match network_rpc st network with
    | .error e => .error e
    | .ok _ => .ok ()

/-- Model of `BaseManager._ensure_delegate_key`. -/
def ensure_delegate_key (st : Settings) : Except OstiumServiceError String :=
  if st.ostium_delegate_private_key = "" then
    .error { code := "DELEGATE_KEY_MISSING"
             message := "OSTIUM_DELEGATE_PRIVATE_KEY is not configured"
             status_code := 503, retryable := some false }
  else .ok st.ostium_delegate_private_key

/-! ## Pair catalog and market manager (`MarketManager`) -/

/-- One element of the remote pair catalog (`dict[str, Any]`); only the keys
the code reads are modelled, each as `Option` (absent key → `dict.get` gives
`None`). `id` / `pairId` are integers in real catalogs. -/
structure PairRecord where
  idField : Option Int := none
  pairIdField : Option Int := none
  fromField : Option String := none
  symbolField : Option String := none
  nameField : Option String := none
  toField : Option String := none
  isPausedField : Option Bool := none
deriving DecidableEq, Repr

/-- Python `pair.get("id") or pair.get("pairId")`: `or` takes the second
operand when the first is falsy (`None` or the integer `0`). -/
def idOrPairId (p : PairRecord) : Option Int :=
  match p.idField with
  | some i => if i = 0 then p.pairIdField else some i
  | none => p.pairIdField

/-- Each remote SDK interaction, as recorded in the call trace. -/
inductive RemoteCall
  /-- The SDK call `sdk.get_formatted_pairs_details()` (primary catalog source). -/
  | fetchPrimary
  /-- The SDK call `sdk.subgraph.get_pairs()` (secondary catalog source). -/
  | fetchSecondary
  /-- The SDK call `sdk.get_pair_max_leverage(pair_id)`. -/
  | maxLeverage
  /-- The SDK call `sdk.price.get_price(base, quote)`. -/
  | getPrice
  /-- The SDK call `sdk.ostium.perform_trade(trade_params, at_price)`. -/
  | performTrade (at_price : Rat)
  /-- The SDK call `sdk.ostium.close_trade(...)`. -/
  | closeTrade (market_price : Rat)
  /-- The SDK call `sdk.ostium.update_sl(...)`. -/
  | updateSl
  /-- The SDK call `sdk.ostium.update_tp(...)`. -/
  | updateTp
  /-- The SDK call `sdk.ostium.cancel_limit_order(...)`. -/
  | cancelOrder
deriving DecidableEq, Repr

/-- Is the trace entry the mutating submission of an idempotency-guarded
operation (`perform_trade`, `close_trade` or `cancel_limit_order`)? -/
def RemoteCall.isSubmit : RemoteCall → Bool
  | .performTrade _ => true
  | .closeTrade _ => true
  | .cancelOrder => true
  | _ => false

/-- Outcomes of the two remote catalog sources for one `_fetch_pairs` call.
`.error m` = the call raised (message `m`); `.ok none` = it returned a
non-list value (`isinstance(pairs, list)` is false); `.ok (some l)` = it
returned the list `l`. -/
structure FetchEnv where
  primary : Except String (Option (List PairRecord))
  secondary : Except String (Option (List PairRecord))
deriving Repr

/-- The `MARKETS_FETCH_FAILED` error raised when the secondary source raises. -/
def marketsFetchFailed (excMsg : String) : OstiumServiceError :=
  { code := "MARKETS_FETCH_FAILED", message := "Failed to fetch markets from Ostium"
    status_code := 502, retryable := some true, details := some [("error", excMsg)] }

/-- Model of `MarketManager._fetch_pairs`: primary source first; any primary raise or
non-list result falls through to the secondary; a secondary raise becomes
`MARKETS_FETCH_FAILED`; a secondary non-list result reaches the trailing
`return []`. The trace records which sources were called. -/
def fetch_pairs (st : Settings) (network : String) (fe : FetchEnv) :
    Except OstiumServiceError (List PairRecord) × List RemoteCall :=
  match build_sdk st network with
  | .error e => (.error e, [])
  | .ok _ =>
    match fe.primary with
    | .ok (some pairs) => (.ok pairs, [.fetchPrimary])
    | _ =>
      match fe.secondary with
      | .ok (some pairs) => (.ok pairs, [.fetchPrimary, .fetchSecondary])
      | .ok none => (.ok [], [.fetchPrimary, .fetchSecondary])
      | .error exc => (.error (marketsFetchFailed exc), [.fetchPrimary, .fetchSecondary])

/-- Python `str.isdigit()` restricted to ASCII digits (the repository only
sends ASCII market tokens). -/
def pyIsdigit (s : String) : Bool :=
  !s.data.isEmpty && s.data.all Char.isDigit

/-- Python `str(pair.get(k, "")).upper()` for a string-valued catalog field. -/
def upperField (f : Option String) : String :=
  upperStr (f.getD "")

/-- The matching loop of `MarketManager.resolve_pair_id`: first record whose
upper-cased `from`/`symbol`/`name` equals the normalized token and whose
`id or pairId` is not `None` wins; a matching record with falsy identifiers
is skipped (the loop continues). -/
def findPairId (normalized : String) : List PairRecord → Option Int
  | [] => none
  | pr :: rest =>
    if normalized = upperField pr.fromField ∨ normalized = upperField pr.symbolField
        ∨ normalized = upperField pr.nameField then
      match idOrPairId pr with
      | some i => some i
      | none => findPairId normalized rest
    else findPairId normalized rest

/-- Model of `MarketManager.resolve_pair_id`: a purely numeric token short-circuits
(no catalog fetch); otherwise fetch the catalog and scan it; no match is
`INVALID_MARKET` (400, non-retryable). -/
def resolve_pair_id (st : Settings) (network market : String) (fe : FetchEnv) :
    Except OstiumServiceError Int × List RemoteCall :=
  if pyIsdigit market then (.ok ((parseDigits market.data).getD 0 : Nat), [])
  else
    match fetch_pairs st network fe with
    | (.error e, tr) => (.error e, tr)
    | (.ok pairs, tr) =>
      match findPairId (upperStr market) pairs with
      | some i => (.ok i, tr)
      | none =>
        (.error { code := "INVALID_MARKET"
                  message := "Market " ++ market ++ " is not available on " ++ network
                  status_code := 400, retryable := some false }, tr)

/-- The scanning loop of `MarketManager.resolve_pair_symbol`: records whose
`id or pairId` is `None` are skipped; on the first identifier match the
upper-cased `from` field is returned, with `symbol or None` turning the empty
string into `None` (and the scan stops there). -/
def findSymbol (pair_id : Int) : List PairRecord → Option String
  | [] => none
  | pr :: rest =>
    match idOrPairId pr with
    | none => findSymbol pair_id rest
    | some current_id =>
      if current_id = pair_id then
        (if upperField pr.fromField = "" then none else some (upperField pr.fromField))
      else findSymbol pair_id rest

/-- Model of `MarketManager.resolve_pair_symbol`. -/
def resolve_pair_symbol (st : Settings) (network : String) (pair_id : Int) (fe : FetchEnv) :
    Except OstiumServiceError (Option String) × List RemoteCall :=
  match fetch_pairs st network fe with
  | (.error e, tr) => (.error e, tr)
  | (.ok pairs, tr) => (.ok (findSymbol pair_id pairs), tr)

/-- Result of `MarketManager.get_price` (only the fields the trading paths
read; the market-open flags are irrelevant to every claim). -/
structure PriceResponse where
  network : String
  base : String
  quote : String
  price : Option Rat
deriving DecidableEq, Repr

/-- Model of `MarketManager.get_price` (non-detailed path). The remote outcome `pe` is
the already-extracted price field: `.error m` = the SDK call raised, wrapped
into `PRICE_FETCH_FAILED` (502, retryable=True); `.ok none` = the SDK returned
no price (`price` stays `None`); `.ok (some v)` = price `v`. -/
def get_price (st : Settings) (network base quote : String)
    (pe : Except String (Option Rat)) :
    Except OstiumServiceError PriceResponse × List RemoteCall :=
  match build_sdk st network with
  | .error e => (.error e, [])
  | .ok _ =>
    match pe with
    | .error exc =>
      (.error { code := "PRICE_FETCH_FAILED"
                message := "Failed to fetch price for " ++ upperStr base ++ "/" ++ upperStr quote
                status_code := 502, retryable := some true
                details := some [("error", exc)] }, [.getPrice])
    | .ok v =>
      (.ok { network := network, base := upperStr base, quote := upperStr quote, price := v },
       [.getPrice])

/-! ## Trading manager (`TradingManager`)

Response dicts are modelled as structures; the cache stores whatever response
dict a mutating call produced, so the cached-value type is the sum
`RespVal`. The opaque SDK call result (serialized through `_to_json_safe`) is
modelled as a `String`. -/

/-- Response dict of `TradingManager.open_position`. -/
structure OpenResponse where
  network : String
  pairId : Int
  orderType : String
  triggerPrice : Rat
  status : String
  result : String
deriving DecidableEq, Repr

/-- Response dict of `TradingManager.close_position`. -/
structure CloseResponse where
  network : String
  pairId : Int
  tradeIndex : Int
  status : String
  result : String
deriving DecidableEq, Repr

/-- Response dict of `TradingManager.update_sl`. -/
structure UpdateSlResponse where
  network : String
  pairId : Int
  tradeIndex : Int
  slPrice : Rat
  status : String
  result : String
deriving DecidableEq, Repr

/-- Response dict of `TradingManager.update_tp`. -/
structure UpdateTpResponse where
  network : String
  pairId : Int
  tradeIndex : Int
  tpPrice : Rat
  status : String
  result : String
deriving DecidableEq, Repr

/-- Response dict of `OrderManager.cancel_order` (its key set happens to
coincide with the close-position response dict). -/
structure CancelOrderResponse where
  network : String
  pairId : Int
  tradeIndex : Int
  status : String
  result : String
deriving DecidableEq, Repr

/-- A mutation response as stored in / replayed from the idempotency cache
(the Python cache holds plain dicts, so entries from the different mutating
operations share one map; each manager instance owns its own cache). -/
inductive RespVal
  | openR (r : OpenResponse)
  | closeR (r : CloseResponse)
  | updSlR (r : UpdateSlResponse)
  | updTpR (r : UpdateTpResponse)
  | cancelR (r : CancelOrderResponse)
deriving DecidableEq, Repr

/-- The idempotency cache of a manager instance. -/
abbrev Cache := CacheMap RespVal

/-- The `payload` dict of an open-position request (`PositionOpenRequest
.model_dump()`; defaults as in the schema). -/
structure OpenPayload where
  network : String
  market : String
  side : String
  collateral : Rat
  leverage : Rat
  orderType : String := "market"
  triggerPrice : Option Rat := none
  slippage : Rat := 2
  slPrice : Option Rat := none
  tpPrice : Option Rat := none
  traderAddress : Option String := none
  idempotencyKey : Option String := none
deriving DecidableEq, Repr

/-- Remote outcomes for one `open_position` call: the two catalog fetches
(`resolve_pair_id` and `resolve_pair_symbol` each refetch), the best-effort
max-leverage query, the price fetch, and the trade submission. For SDK calls,
`.error m` means the call raised with message `m`. -/
structure OpenEnv where
  fetch1 : FetchEnv
  fetch2 : FetchEnv
  maxLeverage : Except String Rat
  price : Except String (Option Rat)
  performTrade : Except String String
deriving Repr

/-- Result of one mutating adapter call: the outcome, the cache afterwards,
and the trace of remote SDK calls made. -/
structure CallResult where
  outcome : Except OstiumServiceError RespVal
  cache : Cache
  trace : List RemoteCall

/-- The best-effort leverage ceiling check in `TradingManager.open_position`:
a generic exception from `get_pair_max_leverage` is swallowed (the adapter
proceeds), while a ceiling violation raises `LEVERAGE_TOO_HIGH` (400). -/
def leverageCheck (leverage : Rat) (ml : Except String Rat) :
    Except OstiumServiceError Unit :=
  match ml with
  | .error _ => .ok ()
  | .ok max_leverage =>
    if leverage > max_leverage then
      .error { code := "LEVERAGE_TOO_HIGH"
               message := "Leverage exceeds maximum"
               status_code := 400 }
    else .ok ()

/-- The `PriceOrTrigger` step of `TradingManager.open_position`: for
`orderType == "MARKET"` fetch the live price (a `None` price is
`PRICE_FETCH_FAILED`, 502); otherwise require `triggerPrice`
(`TRIGGER_PRICE_REQUIRED`, 400, when absent) and use it as the price. -/
def price_or_trigger (st : Settings) (network symbol order_type : String)
    (triggerPrice : Option Rat) (pe : Except String (Option Rat)) :
    Except OstiumServiceError Rat × List RemoteCall :=
  if order_type = "MARKET" then
    match get_price st network symbol "USD" pe with
    | (.error e, trP) => (.error e, trP)
    | (.ok price_data, trP) =>
      match price_data.price with
      | none =>
        (.error { code := "PRICE_FETCH_FAILED"
                  message := "Could not determine market price"
                  status_code := 502 }, trP)
      | some v => (.ok v, trP)
  else
    match triggerPrice with
    | none =>
      (.error { code := "TRIGGER_PRICE_REQUIRED"
                message := "triggerPrice is required"
                status_code := 400 }, [])
    | some tp => (.ok tp, [])

/-- The body of `TradingManager.open_position` after the idempotency check
(source order: resolve pair id, delegate key, build SDK, best-effort leverage
ceiling, resolve symbol, price-or-trigger branch on `orderType`, submit). -/
def openCore (st : Settings) (p : OpenPayload) (env : OpenEnv) :
    Except OstiumServiceError RespVal × List RemoteCall :=
  match resolve_pair_id st p.network p.market env.fetch1 with
  | (.error e, tr) => (.error e, tr)
  | (.ok pair_id, tr1) =>
    let order_type := upperStr p.orderType
    match ensure_delegate_key st with
    | .error e => (.error e, tr1)
    | .ok _ =>
      match build_sdk st p.network with
      | .error e => (.error e, tr1)
      | .ok _ =>
        match leverageCheck p.leverage env.maxLeverage with
        | .error e => (.error e, tr1 ++ [.maxLeverage])
        | .ok _ =>
          let tr2 := tr1 ++ [.maxLeverage]
          match resolve_pair_symbol st p.network pair_id env.fetch2 with
          | (.error e, trS) => (.error e, tr2 ++ trS)
          | (.ok none, trS) =>
            (.error { code := "INVALID_MARKET"
                      message := "Could not resolve symbol for pairId"
                      status_code := 400 }, tr2 ++ trS)
          | (.ok (some symbol), trS) =>
            let tr3 := tr2 ++ trS
            match price_or_trigger st p.network symbol order_type p.triggerPrice env.price with
            | (.error e, trP) => (.error e, tr3 ++ trP)
            | (.ok at_price, trP) =>
              match env.performTrade with
              | .error exc =>
                (.error (normalize_sdk_error "open_position" "OPEN_POSITION_FAILED"
                          "Failed to open position" exc),
                 tr3 ++ trP ++ [.performTrade at_price])
              | .ok result =>
                (.ok (.openR { network := p.network, pairId := pair_id
                               orderType := order_type, triggerPrice := at_price
                               status := "submitted", result := result }),
                 tr3 ++ trP ++ [.performTrade at_price])

/-- Model of `TradingManager.open_position`: replay short-circuit on the idempotency
cache, then the core, then `_idempotency_set` on success only. -/
def open_position (st : Settings) (now : Int) (cache : Cache) (p : OpenPayload)
    (env : OpenEnv) : CallResult :=
  match idempotency_get now cache p.idempotencyKey with
  | (some existing, c1) => ⟨.ok existing, c1, []⟩
  | (none, c1) =>
    match openCore st p env with
    | (.error e, tr) => ⟨.error e, c1, tr⟩
    | (.ok r, tr) => ⟨.ok r, idempotency_set now c1 p.idempotencyKey r, tr⟩

/-- The `payload` dict of a close-position request. -/
structure ClosePayload where
  network : String
  pairId : Int
  tradeIndex : Int
  closePercentage : Rat := 100
  slippage : Rat := 2
  traderAddress : Option String := none
  idempotencyKey : Option String := none
deriving DecidableEq, Repr

/-- Remote outcomes for one `close_position` call. -/
structure CloseEnv where
  fetchSym : FetchEnv
  price : Except String (Option Rat)
  closeTrade : Except String String
deriving Repr

/-- The body of `TradingManager.close_position` after the idempotency check
(source order: delegate key, build SDK, resolve symbol, price fetch, submit). -/
def closeCore (st : Settings) (p : ClosePayload) (env : CloseEnv) :
    Except OstiumServiceError RespVal × List RemoteCall :=
  match ensure_delegate_key st with
  | .error e => (.error e, [])
  | .ok _ =>
    match build_sdk st p.network with
    | .error e => (.error e, [])
    | .ok _ =>
      match resolve_pair_symbol st p.network p.pairId env.fetchSym with
      | (.error e, trS) => (.error e, trS)
      | (.ok none, trS) =>
        (.error { code := "INVALID_MARKET", message := "Could not resolve symbol"
                  status_code := 400 }, trS)
      | (.ok (some symbol), trS) =>
        match get_price st p.network symbol "USD" env.price with
        | (.error e, trP) => (.error e, trS ++ trP)
        | (.ok price_data, trP) =>
          match price_data.price with
          | none =>
            (.error { code := "PRICE_FETCH_FAILED", message := "Could not determine price"
                      status_code := 502 }, trS ++ trP)
          | some market_price =>
            match env.closeTrade with
            | .error exc =>
              (.error (normalize_sdk_error "close_position" "CLOSE_POSITION_FAILED"
                        "Failed to close position" exc),
               trS ++ trP ++ [.closeTrade market_price])
            | .ok result =>
              (.ok (.closeR { network := p.network, pairId := p.pairId
                              tradeIndex := p.tradeIndex
                              status := "submitted", result := result }),
               trS ++ trP ++ [.closeTrade market_price])

/-- Model of `TradingManager.close_position`. -/
def close_position (st : Settings) (now : Int) (cache : Cache) (p : ClosePayload)
    (env : CloseEnv) : CallResult :=
  match idempotency_get now cache p.idempotencyKey with
  | (some existing, c1) => ⟨.ok existing, c1, []⟩
  | (none, c1) =>
    match closeCore st p env with
    | (.error e, tr) => ⟨.error e, c1, tr⟩
    | (.ok r, tr) => ⟨.ok r, idempotency_set now c1 p.idempotencyKey r, tr⟩

/-- The `payload` dict of an update-stop-loss request. `PositionUpdateSlRequest`
has no `idempotencyKey` field; the optional field here models a raw payload
dict that carries one anyway — `TradingManager.update_sl` never reads it. -/
structure UpdSlPayload where
  network : String
  pairId : Int
  tradeIndex : Int
  slPrice : Rat
  traderAddress : Option String := none
  idempotencyKey : Option String := none
deriving DecidableEq, Repr

/-- Model of `TradingManager.update_sl`: no idempotency read or write; delegate key and
SDK checks, then the remote `update_sl` call, with `_normalize_sdk_error` on
failure. The cache of the manager (`self._idempotency_cache`) stays untouched. -/
def update_sl (st : Settings) (cache : Cache) (p : UpdSlPayload)
    (remote : Except String String) : CallResult :=
  match ensure_delegate_key st with
  | .error e => ⟨.error e, cache, []⟩
  | .ok _ =>
    match build_sdk st p.network with
    | .error e => ⟨.error e, cache, []⟩
    | .ok _ =>
      match remote with
      | .error exc =>
        ⟨.error (normalize_sdk_error "update_sl" "UPDATE_SL_FAILED" "Failed to update SL" exc),
         cache, [.updateSl]⟩
      | .ok result =>
        ⟨.ok (.updSlR { network := p.network, pairId := p.pairId
                        tradeIndex := p.tradeIndex, slPrice := p.slPrice
                        status := "submitted", result := result }),
         cache, [.updateSl]⟩

/-- The `payload` dict of an update-take-profit request (same note on
`idempotencyKey` as for `UpdSlPayload`). -/
structure UpdTpPayload where
  network : String
  pairId : Int
  tradeIndex : Int
  tpPrice : Rat
  traderAddress : Option String := none
  idempotencyKey : Option String := none
deriving DecidableEq, Repr

/-- Model of `TradingManager.update_tp`: same shape as `update_sl`. -/
def update_tp (st : Settings) (cache : Cache) (p : UpdTpPayload)
    (remote : Except String String) : CallResult :=
  match ensure_delegate_key st with
  | .error e => ⟨.error e, cache, []⟩
  | .ok _ =>
    match build_sdk st p.network with
    | .error e => ⟨.error e, cache, []⟩
    | .ok _ =>
      match remote with
      | .error exc =>
        ⟨.error (normalize_sdk_error "update_tp" "UPDATE_TP_FAILED" "Failed to update TP" exc),
         cache, [.updateTp]⟩
      | .ok result =>
        ⟨.ok (.updTpR { network := p.network, pairId := p.pairId
                        tradeIndex := p.tradeIndex, tpPrice := p.tpPrice
                        status := "submitted", result := result }),
         cache, [.updateTp]⟩

/-! ## Order manager mutation (`OrderManager.cancel_order`)

The order manager is a further `BaseManager` instance; `cancel_order` is the
third cache-consulting mutation (its `OrderCancelRequest` schema carries an
optional `idempotencyKey`). -/

/-- The `payload` dict of a cancel-order request
(`OrderCancelRequest.model_dump()`). -/
structure CancelPayload where
  network : String
  pairId : Int
  tradeIndex : Int
  traderAddress : Option String := none
  idempotencyKey : Option String := none
deriving DecidableEq, Repr

/-- The body of `OrderManager.cancel_order` after the idempotency check
(source order: delegate key evaluated as the `_build_sdk` argument, the SDK
checks, then the remote `cancel_limit_order` call with
`_normalize_sdk_error` on failure). -/
def cancelCore (st : Settings) (p : CancelPayload) (remote : Except String String) :
    Except OstiumServiceError RespVal × List RemoteCall :=
  match ensure_delegate_key st with
  | .error e => (.error e, [])
  | .ok _ =>
    match build_sdk st p.network with
    | .error e => (.error e, [])
    | .ok _ =>
      match remote with
      | .error exc =>
        (.error (normalize_sdk_error "cancel_order" "CANCEL_ORDER_FAILED"
           "Failed to cancel order" exc), [.cancelOrder])
      | .ok result =>
        (.ok (.cancelR { network := p.network, pairId := p.pairId
                         tradeIndex := p.tradeIndex
                         status := "submitted", result := result }),
         [.cancelOrder])

/-- Model of `OrderManager.cancel_order`: replay short-circuit on the order
manager cache, then the core, then `_idempotency_set` on success only. -/
def cancel_order (st : Settings) (now : Int) (cache : Cache) (p : CancelPayload)
    (remote : Except String String) : CallResult :=
  match idempotency_get now cache p.idempotencyKey with
  | (some existing, c1) => ⟨.ok existing, c1, []⟩
  | (none, c1) =>
    match cancelCore st p remote with
    | (.error e, tr) => ⟨.error e, c1, tr⟩
    | (.ok r, tr) => ⟨.ok r, idempotency_set now c1 p.idempotencyKey r, tr⟩

/-- The idempotency wrapper every cache-consulting mutation shares: consult
the cache first, run the core otherwise, store the result on success only.
`open_position`, `close_position` and `cancel_order` are all instances of
this shape (proven below). -/
def runIdempotent (now : Int) (cache : Cache) (key : Option String)
    (core : Except OstiumServiceError RespVal × List RemoteCall) : CallResult :=
  match idempotency_get now cache key with
  | (some existing, c1) => ⟨.ok existing, c1, []⟩
  | (none, c1) =>
    match core with
    | (.error e, tr) => ⟨.error e, c1, tr⟩
    | (.ok r, tr) => ⟨.ok r, idempotency_set now c1 key r, tr⟩

/-! ## HMAC authentication middleware (`app/middleware/hmac_auth.py`)

The HMAC-SHA256 digest computation is abstracted as a parameter
`hmacHex : secret → message → hex digest`; the middleware only ever compares
its output for equality (`hmac.compare_digest` is constant-time string
equality). `time()` is passed in as `nowMs` (milliseconds). -/

/-- Python `int(s)`: optional surrounding whitespace, optional single sign,
then decimal digits (the underscore-grouping extension of `int()` is not
modelled; timestamps never use it). -/
def parseIntPy (s : String) : Option Int :=
  let t := pyStrip s
  let (sign, digits) :=
    if pyStartsWith t "-" then ((-1 : Int), t.data.drop 1)
    else if pyStartsWith t "+" then ((1 : Int), t.data.drop 1)
    else ((1 : Int), t.data)
  (parseDigits digits).map fun n => sign * (n : Int)

/-- The inbound request as the middleware sees it: URL path, method, raw body
(decoded utf-8), and the two auth headers (`None` when absent). -/
structure HttpRequest where
  path : String
  method : String
  body : String
  timestampHeader : Option String := none
  signatureHeader : Option String := none
deriving DecidableEq, Repr

/-- Middleware outcome: pass the request on, or return a JSON error response
with status, error code and error message. -/
inductive AuthOutcome
  | forwarded
  | rejected (status : Nat) (code : String) (message : String)
deriving DecidableEq, Repr

/-- The HMAC-relevant slice of `Settings` for the middleware: the shared
secret (empty = unconfigured, Python falsy) and the timestamp tolerance in
milliseconds (`hmac_timestamp_tolerance_ms`). -/
structure AuthSettings where
  hmac_secret : String
  hmac_timestamp_tolerance_ms : Int
deriving DecidableEq, Repr

/-- Model of `HmacAuthMiddleware.dispatch`, up to the decision to forward or reject.
Header values are read with `.get`, then checked with Python truthiness
(`if not timestamp or not signature`: absent or empty rejects). The canonical
message is `timestamp + ":" + METHOD + ":" + path + ":" + body`. -/
def dispatch (st : AuthSettings) (hmacHex : String → String → String) (nowMs : Int)
    (req : HttpRequest) : AuthOutcome :=
  if req.path = "/health" ∨ req.path = "/ready" then .forwarded
  else if !pyStartsWith req.path "/v1/" then .forwarded
  else if st.hmac_secret = "" then
    .rejected 500 "SERVER_MISCONFIGURED" "HMAC secret is not configured"
  else
    let timestamp := req.timestampHeader.getD ""
    let signature := req.signatureHeader.getD ""
    if timestamp = "" ∨ signature = "" then
      .rejected 401 "UNAUTHORIZED" "Missing required authentication headers"
    else
      match parseIntPy timestamp with
      | none => .rejected 401 "UNAUTHORIZED" "Invalid timestamp format"
      | some request_ts =>
        if |nowMs - request_ts| > st.hmac_timestamp_tolerance_ms then
          .rejected 401 "UNAUTHORIZED" "Request expired or timestamp too far in future"
        else
          let payload := timestamp ++ ":" ++ upperStr req.method ++ ":" ++ req.path
            ++ ":" ++ req.body
          let expected := hmacHex st.hmac_secret payload
          if expected ≠ signature then
            .rejected 401 "UNAUTHORIZED" "Invalid signature"
          else .forwarded

/-! ## Concrete fixtures used by counterexamples and witnesses -/

/-- A fully configured `Settings` (feature enabled, SDK importable, RPC urls
and delegate key present). -/
def stOk : Settings :=
  { ostium_enabled := true, sdkImported := true
    ostium_testnet_rpc_url := "rpc-testnet", ostium_mainnet_rpc_url := "rpc-mainnet"
    ostium_delegate_private_key := "dk" }

/-- A catalog record for pair id 1 with base symbol BTC. -/
def btcRecord : PairRecord :=
  { idField := some 1, fromField := some "BTC" }

/-- A cached close-position response, used as a pre-existing cache entry. -/
def cachedResp : RespVal :=
  .closeR { network := "testnet", pairId := 1, tradeIndex := 2
            status := "submitted", result := "cached" }

/-- A cache holding `cachedResp` under key "k", created at time 0. -/
def cacheWithK : Cache :=
  idempotency_set 0 emptyCache (some "k") cachedResp

/-- An open-position payload for market "1" carrying idempotency key "k"
(orderType defaults to "market"). -/
def pOpenK : OpenPayload :=
  { network := "testnet", market := "1", side := "long"
    collateral := 100, leverage := 5, idempotencyKey := some "k" }

/-- A limit-order open-position payload without a trigger price. -/
def pLimitNoTrig : OpenPayload :=
  { network := "testnet", market := "1", side := "long"
    collateral := 100, leverage := 5, orderType := "limit" }

/-- An update-stop-loss payload whose raw dict carries idempotency key "k". -/
def pSlK : UpdSlPayload :=
  { network := "testnet", pairId := 1, tradeIndex := 2, slPrice := 100
    idempotencyKey := some "k" }

/-- Remote outcomes where every needed SDK call succeeds: catalog
`[btcRecord]` from the primary source, live price 50000, trade result "tx";
the max-leverage query raises and is swallowed by the best-effort check. -/
def envOpen : OpenEnv :=
  { fetch1 := ⟨.ok (some [btcRecord]), .ok none⟩
    fetch2 := ⟨.ok (some [btcRecord]), .ok none⟩
    maxLeverage := .error "lev down"
    price := .ok (some 50000)
    performTrade := .ok "tx" }

/-- Same as `envOpen` but the trade submission raises. -/
def envOpenFail : OpenEnv :=
  { envOpen with performTrade := .error "boom" }

/-- The response produced by a successful open of `pOpenK` under `envOpen`. -/
def openRespFix : RespVal :=
  .openR { network := "testnet", pairId := 1, orderType := "MARKET"
           triggerPrice := 50000, status := "submitted", result := "tx" }

/-- A close-position payload for pair 1 carrying idempotency key "k". -/
def pCloseK : ClosePayload :=
  { network := "testnet", pairId := 1, tradeIndex := 0, idempotencyKey := some "k" }

/-- Remote outcomes for a successful close: catalog `[btcRecord]`, price
50000, close result "ctx". -/
def envClose : CloseEnv :=
  { fetchSym := ⟨.ok (some [btcRecord]), .ok none⟩
    price := .ok (some 50000)
    closeTrade := .ok "ctx" }

/-- The response produced by a successful close of `pCloseK` under `envClose`. -/
def closeRespFix : RespVal :=
  .closeR { network := "testnet", pairId := 1, tradeIndex := 0
            status := "submitted", result := "ctx" }

/-- A cancel-order payload for pair 1 carrying idempotency key "k". -/
def pCancelK : CancelPayload :=
  { network := "testnet", pairId := 1, tradeIndex := 0, idempotencyKey := some "k" }

/-- The response produced by a successful cancel of `pCancelK` with remote
result "canceled". -/
def cancelRespFix : RespVal :=
  .cancelR { network := "testnet", pairId := 1, tradeIndex := 0
             status := "submitted", result := "canceled" }

/-! # Theorems -/

/-- The normalized details always carry the raw exception text and the
operation name (shared helper for the normalizer claims). -/
theorem normalize_details (op dc dm msg : String) :
    (normalize_sdk_error op dc dm msg).details = some [("error", msg), ("operation", op)] := by
  simp only [normalize_sdk_error]
  split_ifs <;> rfl

/-- C4 counterexample: on a message containing "timed out" that matches no
earlier pattern, `_normalize_sdk_error` for operation `open_position` returns
the fixed code `OSTIUM_SERVICE_TIMEOUT`, not the operation-specific
`OPEN_POSITION_TIMEOUT` the claim asserts. -/
theorem C4_counterexample :
    (normalize_sdk_error "open_position" "OPEN_POSITION_FAILED"
        "Failed to open position" "connection timed out").code = "OSTIUM_SERVICE_TIMEOUT"
    ∧ ("OSTIUM_SERVICE_TIMEOUT" : String) ≠ "OPEN_POSITION_TIMEOUT" := by
  exact ⟨rfl, by decide⟩

/-- C4 (amended): for every operation name and every exception whose
lower-cased message contains "timeout" or "timed out" and matches none of the
four earlier patterns, error normalization returns a ServiceError with the
fixed code `OSTIUM_SERVICE_TIMEOUT` (the same for every operation), HTTP
status 504 and retryable = true, with the raw text and operation in details. -/
theorem C4_timeout_normalization (op dc dm msg : String)
    (ht : containsSub (lowerStr msg) "timeout" = true ∨ containsSub (lowerStr msg) "timed out" = true)
    (h1 : containsSub (lowerStr msg) "sufficient allowance" = false)
    (h2 : containsSub (lowerStr msg) "allowance for" = false)
    (h3 : containsSub (lowerStr msg) "delegation is not active" = false)
    (h4 : containsSub (lowerStr msg) "delegation not active" = false)
    (h5 : containsSub (lowerStr msg) "safe wallet not found" = false)
    (h6 : containsSub (lowerStr msg) "delegate wallet gas is low" = false)
    (h7 : containsSub (lowerStr msg) "insufficient funds for gas" = false) :
    normalize_sdk_error op dc dm msg =
      { code := "OSTIUM_SERVICE_TIMEOUT", message := "Ostium service timed out."
        status_code := 504, retryable := some true
        details := some [("error", msg), ("operation", op)] } := by
  unfold normalize_sdk_error
  rcases ht with h | h <;> simp [h1, h2, h3, h4, h5, h6, h7, h]

/-- C4 witness: the amended theorem applied to the message "timed out". -/
theorem C4_timeout_normalization_witness :
    normalize_sdk_error "update_sl" "UPDATE_SL_FAILED" "Failed to update SL" "timed out" =
      { code := "OSTIUM_SERVICE_TIMEOUT", message := "Ostium service timed out."
        status_code := 504, retryable := some true
        details := some [("error", "timed out"), ("operation", "update_sl")] } :=
  C4_timeout_normalization "update_sl" "UPDATE_SL_FAILED" "Failed to update SL" "timed out"
    (Or.inr (by decide)) (by decide) (by decide) (by decide) (by decide) (by decide)
    (by decide) (by decide)

/-- C5: the normalizer checks its substring patterns on the lower-cased
message in source order with first match winning: a message containing both
"timeout" and "sufficient allowance" classifies as `ALLOWANCE_MISSING` (400,
non-retryable); a message matching no pattern yields the caller-supplied
default code with 502 and retryable = true; and every branch carries the raw
exception text and the operation name in details. -/
theorem C5_normalizer_priority (op dc dm msg : String) :
    (containsSub (lowerStr msg) "timeout" = true →
      containsSub (lowerStr msg) "sufficient allowance" = true →
      normalize_sdk_error op dc dm msg =
        { code := "ALLOWANCE_MISSING"
          message := "Sufficient allowance not present. Approve the trading contract to spend USDC."
          status_code := 400, retryable := some false
          details := some [("error", msg), ("operation", op)] })
    ∧ (containsSub (lowerStr msg) "sufficient allowance" = false →
       containsSub (lowerStr msg) "allowance for" = false →
       containsSub (lowerStr msg) "delegation is not active" = false →
       containsSub (lowerStr msg) "delegation not active" = false →
       containsSub (lowerStr msg) "safe wallet not found" = false →
       containsSub (lowerStr msg) "delegate wallet gas is low" = false →
       containsSub (lowerStr msg) "insufficient funds for gas" = false →
       containsSub (lowerStr msg) "timeout" = false →
       containsSub (lowerStr msg) "timed out" = false →
       normalize_sdk_error op dc dm msg =
         { code := dc, message := dm, status_code := 502, retryable := some true
           details := some [("error", msg), ("operation", op)] })
    ∧ (normalize_sdk_error op dc dm msg).details = some [("error", msg), ("operation", op)] := by
  refine ⟨fun _ hall => ?_, fun h1 h2 h3 h4 h5 h6 h7 h8 h9 => ?_, normalize_details op dc dm msg⟩
  · unfold normalize_sdk_error
    simp [hall]
  · unfold normalize_sdk_error
    simp [h1, h2, h3, h4, h5, h6, h7, h8, h9]

/-- C5 witness: the priority conjunct at a message containing both patterns,
and the default conjunct at an unclassified message. -/
theorem C5_normalizer_priority_witness :
    normalize_sdk_error "open_position" "OPEN_POSITION_FAILED" "dm"
        "timeout: check sufficient allowance" =
      { code := "ALLOWANCE_MISSING"
        message := "Sufficient allowance not present. Approve the trading contract to spend USDC."
        status_code := 400, retryable := some false
        details := some [("error", "timeout: check sufficient allowance"), ("operation", "open_position")] }
    ∧ normalize_sdk_error "open_position" "OPEN_POSITION_FAILED" "dm" "mystery" =
      { code := "OPEN_POSITION_FAILED", message := "dm", status_code := 502
        retryable := some true
        details := some [("error", "mystery"), ("operation", "open_position")] } :=
  ⟨(C5_normalizer_priority "open_position" "OPEN_POSITION_FAILED" "dm"
      "timeout: check sufficient allowance").1 (by decide) (by decide),
   (C5_normalizer_priority "open_position" "OPEN_POSITION_FAILED" "dm" "mystery").2.1
      (by decide) (by decide) (by decide) (by decide) (by decide) (by decide) (by decide)
      (by decide) (by decide)⟩

/-- C8: an entry stored by `_idempotency_set` at time `t` is returned by
`_idempotency_get` at time `t'` when `t' - t ≤ 3600` seconds; when
`t' - t > 3600` (e.g. 3601) the entry is treated as absent and evicted on
that access; and `_idempotency_set` unconditionally overwrites any existing
entry for the key. -/
theorem C8_cache_ttl {α : Type} (c : CacheMap α) (k : String) (hk : k ≠ "")
    (p : α) (t t' : Int) :
    (t' - t ≤ 3600 →
      (idempotency_get t' (idempotency_set t c (some k) p) (some k)).1 = some p)
    ∧ (t' - t > 3600 →
      (idempotency_get t' (idempotency_set t c (some k) p) (some k)).1 = none
      ∧ (idempotency_get t' (idempotency_set t c (some k) p) (some k)).2 k = none)
    ∧ (idempotency_set t c (some k) p) k = some (t, p) := by
  have hins : (idempotency_set t c (some k) p) k = some (t, p) := by
    unfold idempotency_set cacheInsert
    simp [hk]
  refine ⟨fun hle => ?_, fun hgt => ?_, hins⟩
  · unfold idempotency_get
    simp only [hk, if_false, hins]
    rw [if_neg (by omega)]
  · unfold idempotency_get
    simp only [hk, if_false, hins]
    rw [if_pos (by omega)]
    exact ⟨rfl, by unfold cacheErase; simp⟩

/-- C8 witness: store at time 0, hit at time 3600 (inclusive bound), miss and
evict at time 3601, and the overwrite equation, on a concrete cache. -/
theorem C8_cache_ttl_witness :
    (idempotency_get 3600 (idempotency_set 0 (emptyCache (α := Nat)) (some "k") 37) (some "k")).1
        = some 37
    ∧ (idempotency_get 3601 (idempotency_set 0 (emptyCache (α := Nat)) (some "k") 37) (some "k")).1
        = none
    ∧ (idempotency_get 3601 (idempotency_set 0 (emptyCache (α := Nat)) (some "k") 37) (some "k")).2 "k"
        = none
    ∧ (idempotency_set 0 (emptyCache (α := Nat)) (some "k") 37) "k" = some (0, 37) :=
  ⟨(C8_cache_ttl emptyCache "k" (by decide) 37 0 3600).1 (by omega),
   ((C8_cache_ttl emptyCache "k" (by decide) 37 0 3601).2.1 (by omega)).1,
   ((C8_cache_ttl emptyCache "k" (by decide) 37 0 3601).2.1 (by omega)).2,
   (C8_cache_ttl emptyCache "k" (by decide) 37 0 3601).2.2⟩

/-- A record with falsy identifiers (`id or pairId` is `None`) is skipped by
the symbol-resolution scan. -/
theorem findSymbol_skip (pr : PairRecord) (h : idOrPairId pr = none) (pid : Int)
    (rest : List PairRecord) : findSymbol pid (pr :: rest) = findSymbol pid rest := by
  simp only [findSymbol, h]

/-- A record with falsy identifiers is skipped by the id-resolution scan,
whether or not its symbol fields match. -/
theorem findPairId_skip (pr : PairRecord) (h : idOrPairId pr = none) (s : String)
    (rest : List PairRecord) : findPairId s (pr :: rest) = findPairId s rest := by
  simp only [findPairId, h, ite_self]

/-- Removing a falsy-identifier record anywhere in the catalog does not change
symbol resolution. -/
theorem findSymbol_append_skip (pid : Int) (pre post : List PairRecord) (pr : PairRecord)
    (h : idOrPairId pr = none) :
    findSymbol pid (pre ++ pr :: post) = findSymbol pid (pre ++ post) := by
  induction pre with
  | nil => exact findSymbol_skip pr h pid post
  | cons a as ih =>
    simp only [List.cons_append]
    simp only [findSymbol]
    cases hA : idOrPairId a with
    | none => exact ih
    | some cid =>
      by_cases hc : cid = pid
      · simp [hc]
      · simp [hc, ih]

/-- Removing a falsy-identifier record anywhere in the catalog does not change
id resolution. -/
theorem findPairId_append_skip (s : String) (pre post : List PairRecord) (pr : PairRecord)
    (h : idOrPairId pr = none) :
    findPairId s (pre ++ pr :: post) = findPairId s (pre ++ post) := by
  induction pre with
  | nil => exact findPairId_skip pr h s post
  | cons a as ih =>
    simp only [List.cons_append]
    simp only [findPairId]
    split
    · cases hA : idOrPairId a with
      | none => exact ih
      | some cid => rfl
    · exact ih

/-- C10: a catalog record whose `id` field is the falsy integer 0 and whose
`pairId` field is absent has no effective identifier (`id or pairId` is
`None`): both resolution scans skip it entirely, so a catalog whose only
record is such a pair resolves pair id 0 to no symbol, and symbol lookup
through `resolve_pair_symbol` returns `None` even though the record is
present. -/
theorem C10_falsy_id_skipped (pre post : List PairRecord) (pr : PairRecord)
    (h0 : pr.idField = some 0) (h1 : pr.pairIdField = none) :
    (∀ pid : Int, findSymbol pid (pre ++ pr :: post) = findSymbol pid (pre ++ post))
    ∧ (∀ s : String, findPairId s (pre ++ pr :: post) = findPairId s (pre ++ post))
    ∧ findSymbol 0 [pr] = none
    ∧ (∀ (st : Settings) (network : String) (fe : FetchEnv) (tr : List RemoteCall),
        fetch_pairs st network fe = (.ok [pr], tr) →
        resolve_pair_symbol st network 0 fe = (.ok none, tr)) := by
  have hid : idOrPairId pr = none := by simp [idOrPairId, h0, h1]
  have hsym : findSymbol 0 [pr] = none := by
    rw [findSymbol_skip pr hid 0 []]
    rfl
  refine ⟨fun pid => findSymbol_append_skip pid pre post pr hid,
          fun s => findPairId_append_skip s pre post pr hid, hsym, ?_⟩
  intro st network fe tr hfetch
  unfold resolve_pair_symbol
  rw [hfetch]
  simp [hsym]

/-- C10 witness: a one-record catalog whose record carries only `id = 0`
(base symbol ZRO): symbol resolution for pair id 0 is absent, id resolution
for "ZRO" skips the record, and `resolve_pair_symbol` returns `None` when the
fetched catalog is exactly that record. -/
theorem C10_falsy_id_skipped_witness :
    findSymbol 0 [{ idField := some 0, fromField := some "ZRO" }] = none
    ∧ findPairId "ZRO" [{ idField := some 0, fromField := some "ZRO" }] = findPairId "ZRO" []
    ∧ resolve_pair_symbol stOk "testnet" 0
        ⟨.ok (some [{ idField := some 0, fromField := some "ZRO" }]), .ok none⟩
        = (.ok none, [.fetchPrimary]) :=
  ⟨(C10_falsy_id_skipped [] [] { idField := some 0, fromField := some "ZRO" } rfl rfl).2.2.1,
   (C10_falsy_id_skipped [] [] { idField := some 0, fromField := some "ZRO" } rfl rfl).2.1 "ZRO",
   (C10_falsy_id_skipped [] [] { idField := some 0, fromField := some "ZRO" } rfl rfl).2.2.2
      stOk "testnet" ⟨.ok (some [{ idField := some 0, fromField := some "ZRO" }]), .ok none⟩
      [.fetchPrimary] rfl⟩

/-- C9 counterexample: with the service fully configured, when the primary
source returns a malformed (non-list) result and the secondary source also
returns a malformed (non-list) result — both sources failing in the sense the
claim uses for the primary — `_fetch_pairs` returns an empty list instead of
raising `MARKETS_FETCH_FAILED`. -/
theorem C9_counterexample :
    fetch_pairs stOk "testnet" ⟨.ok none, .ok none⟩
      = (.ok [], [.fetchPrimary, .fetchSecondary]) := rfl

/-- C9 (amended): `_fetch_pairs` tries the primary bulk-formatted source
first and returns its result when it is a well-formed list; on any primary
failure (raise or malformed non-list result) it queries the secondary
catalog source; when the secondary raises it raises `MARKETS_FETCH_FAILED`
(502, retryable = true); when the secondary returns a malformed non-list
result it returns an empty pair list instead of raising. -/
theorem C9_fetch_fallback (st : Settings) (network : String) (fe : FetchEnv)
    (hsdk : build_sdk st network = .ok ()) :
    (∀ l, fe.primary = .ok (some l) →
      fetch_pairs st network fe = (.ok l, [.fetchPrimary]))
    ∧ ((∀ l, fe.primary ≠ .ok (some l)) →
        (∀ l, fe.secondary = .ok (some l) →
          fetch_pairs st network fe = (.ok l, [.fetchPrimary, .fetchSecondary]))
        ∧ (∀ m, fe.secondary = .error m →
          fetch_pairs st network fe =
            (.error { code := "MARKETS_FETCH_FAILED"
                      message := "Failed to fetch markets from Ostium"
                      status_code := 502, retryable := some true
                      details := some [("error", m)] },
             [.fetchPrimary, .fetchSecondary]))
        ∧ (fe.secondary = .ok none →
          fetch_pairs st network fe = (.ok [], [.fetchPrimary, .fetchSecondary]))) := by
  constructor
  · intro l hp
    unfold fetch_pairs
    rw [hsdk, hp]
  · intro hp
    have reduce2 : ∀ P : Prop,
        (fe.secondary = fe.secondary →
          (match fe.secondary with
            | .ok (some pairs) => ((.ok pairs : Except OstiumServiceError (List PairRecord)),
                [RemoteCall.fetchPrimary, RemoteCall.fetchSecondary])
            | .ok none => (.ok [], [RemoteCall.fetchPrimary, RemoteCall.fetchSecondary])
            | .error exc => (.error (marketsFetchFailed exc),
                [RemoteCall.fetchPrimary, RemoteCall.fetchSecondary]))
            = fetch_pairs st network fe → P) → P := by
      intro P hP
      refine hP rfl ?_
      unfold fetch_pairs
      rw [hsdk]
      cases hfe : fe.primary with
      | ok v =>
        cases v with
        | some l => exact absurd hfe (hp l)
        | none => rfl
      | error m => rfl
    refine ⟨fun l hs => ?_, fun m hs => ?_, fun hs => ?_⟩
    · refine reduce2 _ (fun _ hred => ?_)
      rw [← hred, hs]
    · refine reduce2 _ (fun _ hred => ?_)
      rw [← hred, hs]
      rfl
    · refine reduce2 _ (fun _ hred => ?_)
      rw [← hred, hs]

/-- C9 witness: primary raises and secondary raises — the fallback is
attempted and the combined failure is `MARKETS_FETCH_FAILED`; and a
well-formed primary result is returned directly. -/
theorem C9_fetch_fallback_witness :
    fetch_pairs stOk "testnet" ⟨.error "boom", .error "down"⟩
      = (.error { code := "MARKETS_FETCH_FAILED"
                  message := "Failed to fetch markets from Ostium"
                  status_code := 502, retryable := some true
                  details := some [("error", "down")] },
         [.fetchPrimary, .fetchSecondary])
    ∧ fetch_pairs stOk "testnet" ⟨.ok (some [btcRecord]), .error "down"⟩
      = (.ok [btcRecord], [.fetchPrimary]) :=
  ⟨((C9_fetch_fallback stOk "testnet" ⟨.error "boom", .error "down"⟩ rfl).2
      (fun l h => by simp at h)).2.1 "down" rfl,
   (C9_fetch_fallback stOk "testnet" ⟨.ok (some [btcRecord]), .error "down"⟩ rfl).1
      [btcRecord] rfl⟩

/-- On a path subject to authentication, neither exempt-path branch applies. -/
theorem authPath_not_exempt (req : HttpRequest)
    (hpath : pyStartsWith req.path "/v1/" = true) :
    ¬ (req.path = "/health" ∨ req.path = "/ready") := by
  rintro (hEq | hEq) <;> (rw [hEq] at hpath; exact absurd hpath (by decide))

/-- C6: with the secret configured, a correctly signed request on an
authenticated path with parsable timestamp is accepted whenever
`|now - timestamp| ≤ tolerance` (inclusive bound); it is rejected whenever
`|now - timestamp| = tolerance + 1`; and a non-numeric timestamp header is a
generic UNAUTHORIZED client error, not an uncaught exception. -/
theorem C6_timestamp_tolerance (st : AuthSettings) (hmacHex : String → String → String)
    (nowMs : Int) (req : HttpRequest)
    (hpath : pyStartsWith req.path "/v1/" = true)
    (hsec : st.hmac_secret ≠ "")
    (ts sig : String)
    (hts : req.timestampHeader = some ts) (htsne : ts ≠ "")
    (hsig : req.signatureHeader = some sig) (hsigne : sig ≠ "") :
    (∀ t : Int, parseIntPy ts = some t →
      |nowMs - t| ≤ st.hmac_timestamp_tolerance_ms →
      sig = hmacHex st.hmac_secret
        (ts ++ ":" ++ upperStr req.method ++ ":" ++ req.path ++ ":" ++ req.body) →
      dispatch st hmacHex nowMs req = .forwarded)
    ∧ (∀ t : Int, parseIntPy ts = some t →
      |nowMs - t| = st.hmac_timestamp_tolerance_ms + 1 →
      dispatch st hmacHex nowMs req
        = .rejected 401 "UNAUTHORIZED" "Request expired or timestamp too far in future")
    ∧ (parseIntPy ts = none →
      dispatch st hmacHex nowMs req
        = .rejected 401 "UNAUTHORIZED" "Invalid timestamp format") := by
  have hne := authPath_not_exempt req hpath
  have hhdr : ¬ (ts = "" ∨ sig = "") := by
    rintro (hEq | hEq)
    exacts [htsne hEq, hsigne hEq]
  refine ⟨fun t hparse hle hsigeq => ?_, fun t hparse heq => ?_, fun hparse => ?_⟩
  · unfold dispatch
    rw [if_neg hne]
    simp only [hpath, Bool.not_true, Bool.false_eq_true, if_false]
    rw [if_neg hsec]
    simp only [hts, hsig, Option.getD_some]
    rw [if_neg hhdr]
    simp only [hparse]
    rw [if_neg (not_lt.mpr hle)]
    rw [if_neg (not_not_intro hsigeq.symm)]
  · unfold dispatch
    rw [if_neg hne]
    simp only [hpath, Bool.not_true, Bool.false_eq_true, if_false]
    rw [if_neg hsec]
    simp only [hts, hsig, Option.getD_some]
    rw [if_neg hhdr]
    simp only [hparse]
    rw [if_pos (show |nowMs - t| > st.hmac_timestamp_tolerance_ms by rw [heq]; omega)]
  · unfold dispatch
    rw [if_neg hne]
    simp only [hpath, Bool.not_true, Bool.false_eq_true, if_false]
    rw [if_neg hsec]
    simp only [hts, hsig, Option.getD_some]
    rw [if_neg hhdr]
    simp only [hparse]

/-- C6 witness: tolerance 300 ms, now = 1000: timestamp 800 with a matching
signature is accepted; timestamp 1301 (distance exactly 301 = tolerance + 1)
is rejected; timestamp "12x" is a generic UNAUTHORIZED rejection. -/
theorem C6_timestamp_tolerance_witness :
    dispatch ⟨"secret", 300⟩ (fun _ _ => "deadbeef") 1000
      ⟨"/v1/positions/open", "post", "body", some "800", some "deadbeef"⟩ = .forwarded
    ∧ dispatch ⟨"secret", 300⟩ (fun _ _ => "deadbeef") 1000
      ⟨"/v1/positions/open", "post", "body", some "1301", some "deadbeef"⟩
        = .rejected 401 "UNAUTHORIZED" "Request expired or timestamp too far in future"
    ∧ dispatch ⟨"secret", 300⟩ (fun _ _ => "deadbeef") 1000
      ⟨"/v1/positions/open", "post", "body", some "12x", some "deadbeef"⟩
        = .rejected 401 "UNAUTHORIZED" "Invalid timestamp format" :=
  ⟨(C6_timestamp_tolerance ⟨"secret", 300⟩ (fun _ _ => "deadbeef") 1000
      ⟨"/v1/positions/open", "post", "body", some "800", some "deadbeef"⟩
      (by decide) (by decide) "800" "deadbeef" rfl (by decide) rfl (by decide)).1
      800 (by decide) (by decide) rfl,
   ((C6_timestamp_tolerance ⟨"secret", 300⟩ (fun _ _ => "deadbeef") 1000
      ⟨"/v1/positions/open", "post", "body", some "1301", some "deadbeef"⟩
      (by decide) (by decide) "1301" "deadbeef" rfl (by decide) rfl (by decide)).2.1
      1301 (by decide) (by decide)),
   ((C6_timestamp_tolerance ⟨"secret", 300⟩ (fun _ _ => "deadbeef") 1000
      ⟨"/v1/positions/open", "post", "body", some "12x", some "deadbeef"⟩
      (by decide) (by decide) "12x" "deadbeef" rfl (by decide) rfl (by decide)).2.2
      (by decide))⟩

/-- C7 counterexample: two client-side rejections on the same authenticated
path — missing headers versus a signature mismatch — produce responses with
different message texts, so the response does reveal which check failed (the
generic part is only the code/status). -/
theorem C7_counterexample :
    dispatch ⟨"secret", 300000⟩ (fun _ _ => "") 0
      ⟨"/v1/positions/open", "POST", "", none, none⟩
      = .rejected 401 "UNAUTHORIZED" "Missing required authentication headers"
    ∧ dispatch ⟨"secret", 300000⟩ (fun _ _ => "") 0
      ⟨"/v1/positions/open", "POST", "", some "0", some "zz"⟩
      = .rejected 401 "UNAUTHORIZED" "Invalid signature"
    ∧ ("Missing required authentication headers" : String) ≠ "Invalid signature" := by
  exact ⟨rfl, rfl, by decide⟩

/-- C7 (amended): every client-side rejection on an authenticated path shares
the generic status 401 and code UNAUTHORIZED (while the message text does
distinguish the failed check); an unconfigured HMAC secret is the distinct
server-misconfiguration error SERVER_MISCONFIGURED with status 500. -/
theorem C7_generic_unauthorized (st : AuthSettings) (hmacHex : String → String → String)
    (nowMs : Int) (req : HttpRequest)
    (hpath : pyStartsWith req.path "/v1/" = true) :
    (st.hmac_secret ≠ "" →
      ∀ s c m, dispatch st hmacHex nowMs req = .rejected s c m →
        s = 401 ∧ c = "UNAUTHORIZED")
    ∧ (st.hmac_secret = "" →
      dispatch st hmacHex nowMs req
        = .rejected 500 "SERVER_MISCONFIGURED" "HMAC secret is not configured") := by
  have hne := authPath_not_exempt req hpath
  constructor
  · intro hsec s c m h
    unfold dispatch at h
    rw [if_neg hne] at h
    simp only [hpath, Bool.not_true, Bool.false_eq_true, if_false] at h
    rw [if_neg hsec] at h
    split at h
    · injection h with h1 h2 h3
      exact ⟨h1.symm, h2.symm⟩
    · split at h
      · injection h with h1 h2 h3
        exact ⟨h1.symm, h2.symm⟩
      · split at h
        · injection h with h1 h2 h3
          exact ⟨h1.symm, h2.symm⟩
        · split at h
          · injection h with h1 h2 h3
            exact ⟨h1.symm, h2.symm⟩
          · simp at h
  · intro hsec
    unfold dispatch
    rw [if_neg hne]
    simp only [hpath, Bool.not_true, Bool.false_eq_true, if_false]
    rw [if_pos hsec]

/-- C7 witness: with the secret unconfigured the distinct 500 response is
returned; with it configured, a rejected request (bad signature) carries the
generic 401/UNAUTHORIZED class. -/
theorem C7_generic_unauthorized_witness :
    dispatch ⟨"", 300000⟩ (fun _ _ => "") 0
      ⟨"/v1/positions/open", "POST", "", some "0", some "zz"⟩
      = .rejected 500 "SERVER_MISCONFIGURED" "HMAC secret is not configured"
    ∧ ((401 : Nat) = 401 ∧ ("UNAUTHORIZED" : String) = "UNAUTHORIZED") :=
  ⟨(C7_generic_unauthorized ⟨"", 300000⟩ (fun _ _ => "") 0
      ⟨"/v1/positions/open", "POST", "", some "0", some "zz"⟩ (by decide)).2 rfl,
   (C7_generic_unauthorized ⟨"secret", 300000⟩ (fun _ _ => "") 0
      ⟨"/v1/positions/open", "POST", "", some "0", some "zz"⟩ (by decide)).1
      (by decide) 401 "UNAUTHORIZED" "Invalid signature" rfl⟩

/-- The catalog fetch never performs a trade submission. -/
theorem fetch_pairs_no_submit (st : Settings) (network : String) (fe : FetchEnv) :
    ((fetch_pairs st network fe).2).countP RemoteCall.isSubmit = 0 := by
  unfold fetch_pairs
  cases hb : build_sdk st network with
  | error e => rfl
  | ok u =>
    cases hp : fe.primary with
    | ok v =>
      cases v with
      | some l => rfl
      | none => cases hs : fe.secondary with
        | ok w => cases w <;> rfl
        | error m => rfl
    | error m => cases hs : fe.secondary with
      | ok w => cases w <;> rfl
      | error m2 => rfl

/-- Pair-id resolution never performs a trade submission. -/
theorem resolve_pair_id_no_submit (st : Settings) (network market : String) (fe : FetchEnv) :
    ((resolve_pair_id st network market fe).2).countP RemoteCall.isSubmit = 0 := by
  unfold resolve_pair_id
  split
  · rfl
  · have hf := fetch_pairs_no_submit st network fe
    cases hfp : fetch_pairs st network fe with
    | mk res tr =>
      rw [hfp] at hf
      cases res with
      | error e => exact hf
      | ok pairs =>
        cases h2 : findPairId (upperStr market) pairs with
        | some i => simp only [h2]; exact hf
        | none => simp only [h2]; exact hf

/-- Pair-symbol resolution never performs a trade submission. -/
theorem resolve_pair_symbol_no_submit (st : Settings) (network : String) (pair_id : Int)
    (fe : FetchEnv) :
    ((resolve_pair_symbol st network pair_id fe).2).countP RemoteCall.isSubmit = 0 := by
  unfold resolve_pair_symbol
  have hf := fetch_pairs_no_submit st network fe
  cases hfp : fetch_pairs st network fe with
  | mk res tr =>
    rw [hfp] at hf
    cases res with
    | error e => exact hf
    | ok pairs => exact hf

/-- The price fetch never performs a trade submission. -/
theorem get_price_no_submit (st : Settings) (network base quote : String)
    (pe : Except String (Option Rat)) :
    ((get_price st network base quote pe).2).countP RemoteCall.isSubmit = 0 := by
  unfold get_price
  cases hb : build_sdk st network with
  | error e => rfl
  | ok u => cases pe <;> rfl

/-- The price-or-trigger step never performs a trade submission. -/
theorem price_or_trigger_no_submit (st : Settings) (network symbol order_type : String)
    (triggerPrice : Option Rat) (pe : Except String (Option Rat)) :
    ((price_or_trigger st network symbol order_type triggerPrice pe).2).countP
      RemoteCall.isSubmit = 0 := by
  unfold price_or_trigger
  split
  · have hg := get_price_no_submit st network symbol "USD" pe
    cases hgp : get_price st network symbol "USD" pe with
    | mk res tr =>
      rw [hgp] at hg
      cases res with
      | error e => exact hg
      | ok pd =>
        cases h2 : pd.price with
        | none => simp only [h2]; exact hg
        | some v => simp only [h2]; exact hg
  · cases triggerPrice <;> rfl

/-- Replay behavior: `open_position` on a cache hit returns the cached payload with no remote
calls. -/
theorem open_position_replay (st : Settings) (now : Int) (cache : Cache)
    (p : OpenPayload) (env : OpenEnv) (ex : RespVal) (c' : Cache)
    (hhit : idempotency_get now cache p.idempotencyKey = (some ex, c')) :
    open_position st now cache p env = ⟨.ok ex, c', []⟩ := by
  unfold open_position
  rw [hhit]

/-- Replay behavior: `close_position` on a cache hit returns the cached payload with no remote
calls. -/
theorem close_position_replay (st : Settings) (now : Int) (cache : Cache)
    (p : ClosePayload) (env : CloseEnv) (ex : RespVal) (c' : Cache)
    (hhit : idempotency_get now cache p.idempotencyKey = (some ex, c')) :
    close_position st now cache p env = ⟨.ok ex, c', []⟩ := by
  unfold close_position
  rw [hhit]

/-- Operation `update_sl` never touches the idempotency cache. -/
theorem update_sl_cache_untouched (st : Settings) (cache : Cache) (p : UpdSlPayload)
    (remote : Except String String) :
    (update_sl st cache p remote).cache = cache := by
  unfold update_sl
  cases ensure_delegate_key st with
  | error e => rfl
  | ok dk =>
    cases build_sdk st p.network with
    | error e => rfl
    | ok u => cases remote <;> rfl

/-- Operation `update_tp` never touches the idempotency cache. -/
theorem update_tp_cache_untouched (st : Settings) (cache : Cache) (p : UpdTpPayload)
    (remote : Except String String) :
    (update_tp st cache p remote).cache = cache := by
  unfold update_tp
  cases ensure_delegate_key st with
  | error e => rfl
  | ok dk =>
    cases build_sdk st p.network with
    | error e => rfl
    | ok u => cases remote <;> rfl

/-- Once the delegate-key and SDK checks pass, `update_sl` always performs
the remote `update_sl` call (regardless of any cache contents). -/
theorem update_sl_always_remote (st : Settings) (cache : Cache) (p : UpdSlPayload)
    (remote : Except String String) (dk : String)
    (hdk : ensure_delegate_key st = .ok dk) (hb : build_sdk st p.network = .ok ()) :
    (update_sl st cache p remote).trace = [.updateSl] := by
  unfold update_sl
  rw [hdk, hb]
  cases remote <;> rfl

/-- Once the delegate-key and SDK checks pass, `update_tp` always performs
the remote `update_tp` call. -/
theorem update_tp_always_remote (st : Settings) (cache : Cache) (p : UpdTpPayload)
    (remote : Except String String) (dk : String)
    (hdk : ensure_delegate_key st = .ok dk) (hb : build_sdk st p.network = .ok ()) :
    (update_tp st cache p remote).trace = [.updateTp] := by
  unfold update_tp
  rw [hdk, hb]
  cases remote <;> rfl

/-- A successful `openCore` run performs exactly one trade submission. -/
theorem openCore_ok_submit_count (st : Settings) (p : OpenPayload) (env : OpenEnv)
    (r : RespVal) (tr : List RemoteCall)
    (h : openCore st p env = (.ok r, tr)) :
    tr.countP RemoteCall.isSubmit = 1 := by
  unfold openCore at h
  have hA := resolve_pair_id_no_submit st p.network p.market env.fetch1
  cases hres : resolve_pair_id st p.network p.market env.fetch1 with
  | mk res1 tr1 =>
    rw [hres] at h hA
    simp only at hA
    cases res1 with
    | error e => simp at h
    | ok pid =>
      simp only at h
      cases hdk : ensure_delegate_key st with
      | error e => rw [hdk] at h; simp at h
      | ok dk =>
        rw [hdk] at h
        simp only at h
        cases hb : build_sdk st p.network with
        | error e => rw [hb] at h; simp at h
        | ok u =>
          cases u
          rw [hb] at h
          simp only at h
          cases hlev : leverageCheck p.leverage env.maxLeverage with
          | error e => rw [hlev] at h; simp at h
          | ok u2 =>
            cases u2
            rw [hlev] at h
            simp only at h
            have hB := resolve_pair_symbol_no_submit st p.network pid env.fetch2
            cases hsym : resolve_pair_symbol st p.network pid env.fetch2 with
            | mk res2 trS =>
              rw [hsym] at h hB
              simp only at hB
              cases res2 with
              | error e => simp at h
              | ok osym =>
                cases osym with
                | none => simp at h
                | some sym =>
                  simp only at h
                  have hC := price_or_trigger_no_submit st p.network sym
                    (upperStr p.orderType) p.triggerPrice env.price
                  cases hpt : price_or_trigger st p.network sym
                      (upperStr p.orderType) p.triggerPrice env.price with
                  | mk res3 trP =>
                    rw [hpt] at h hC
                    simp only at hC
                    cases res3 with
                    | error e => simp at h
                    | ok at_price =>
                      simp only at h
                      cases hperf : env.performTrade with
                      | error m => rw [hperf] at h; simp at h
                      | ok result =>
                        rw [hperf] at h
                        simp only at h
                        have htr := congrArg Prod.snd h
                        simp only at htr
                        rw [← htr]
                        simp [List.countP_append, List.countP_cons, RemoteCall.isSubmit,
                          hA, hB, hC]

/-- C1 counterexample: the cache holds a fresh (unexpired) entry under key
"k", and an update-stop-loss payload carries idempotency key "k" — yet
`update_sl` still performs the remote SDK call and does not return the cached
result: the update operations never consult the IdempotencyCache. -/
theorem C1_counterexample :
    (idempotency_get 10 cacheWithK (some "k")).1 = some cachedResp
    ∧ (update_sl stOk cacheWithK pSlK (.ok "txhash")).trace = [.updateSl]
    ∧ (update_sl stOk cacheWithK pSlK (.ok "txhash")).outcome ≠ .ok cachedResp := by
  refine ⟨rfl, rfl, fun h => ?_⟩
  have h2 : Except.ok (RespVal.updSlR
        ⟨"testnet", 1, 2, 100, "submitted", "txhash"⟩)
      = Except.ok cachedResp := h
  injection h2 with h3
  exact absurd h3 (by decide)

/-- C1 (amended): among the four mutating operations, only open-position and
close-position consult the IdempotencyCache first — an unexpired cached entry
for the request key is returned with no remote SDK call. Update-stop-loss and
update-take-profit never consult the cache: they leave it untouched and, once
the configuration checks pass, always perform the remote call regardless of
any cached entry for a key the payload carries. -/
theorem C1_idempotency_consultation (st : Settings) (now : Int) (cache : Cache) :
    (∀ (p : OpenPayload) (env : OpenEnv) (ex : RespVal) (c' : Cache),
      idempotency_get now cache p.idempotencyKey = (some ex, c') →
      open_position st now cache p env = ⟨.ok ex, c', []⟩)
    ∧ (∀ (p : ClosePayload) (env : CloseEnv) (ex : RespVal) (c' : Cache),
      idempotency_get now cache p.idempotencyKey = (some ex, c') →
      close_position st now cache p env = ⟨.ok ex, c', []⟩)
    ∧ (∀ (p : UpdSlPayload) (remote : Except String String),
      (update_sl st cache p remote).cache = cache
      ∧ ∀ dk : String, ensure_delegate_key st = .ok dk → build_sdk st p.network = .ok () →
          (update_sl st cache p remote).trace = [.updateSl])
    ∧ (∀ (p : UpdTpPayload) (remote : Except String String),
      (update_tp st cache p remote).cache = cache
      ∧ ∀ dk : String, ensure_delegate_key st = .ok dk → build_sdk st p.network = .ok () →
          (update_tp st cache p remote).trace = [.updateTp]) := by
  refine ⟨fun p env ex c' hhit => open_position_replay st now cache p env ex c' hhit,
          fun p env ex c' hhit => close_position_replay st now cache p env ex c' hhit,
          fun p remote => ⟨update_sl_cache_untouched st cache p remote,
            fun dk hdk hb => update_sl_always_remote st cache p remote dk hdk hb⟩,
          fun p remote => ⟨update_tp_cache_untouched st cache p remote,
            fun dk hdk hb => update_tp_always_remote st cache p remote dk hdk hb⟩⟩

/-- C1 witness: a replayed open-position call against a concrete warm cache
returns the cached payload with an empty remote trace, while `update_sl` on
the same warm cache leaves it untouched and performs its remote call. -/
theorem C1_idempotency_consultation_witness :
    open_position stOk 10 cacheWithK pOpenK envOpen = ⟨.ok cachedResp, cacheWithK, []⟩
    ∧ (update_sl stOk cacheWithK pSlK (.ok "txhash")).cache = cacheWithK
    ∧ (update_sl stOk cacheWithK pSlK (.ok "txhash")).trace = [.updateSl] :=
  ⟨(C1_idempotency_consultation stOk 10 cacheWithK).1 pOpenK envOpen cachedResp cacheWithK rfl,
   ((C1_idempotency_consultation stOk 10 cacheWithK).2.2.1 pSlK (.ok "txhash")).1,
   ((C1_idempotency_consultation stOk 10 cacheWithK).2.2.1 pSlK (.ok "txhash")).2 "dk" rfl rfl⟩

/-- Equation: `open_position` is the idempotency wrapper around `openCore`. -/
theorem open_position_eq_run (st : Settings) (now : Int) (cache : Cache)
    (p : OpenPayload) (env : OpenEnv) :
    open_position st now cache p env
      = runIdempotent now cache p.idempotencyKey (openCore st p env) := by
  unfold open_position runIdempotent
  cases hg : idempotency_get now cache p.idempotencyKey with
  | mk o c1 =>
    cases o with
    | some ex => rfl
    | none =>
      cases hc : openCore st p env with
      | mk res tr => cases res <;> rfl

/-- Equation: `close_position` is the idempotency wrapper around `closeCore`. -/
theorem close_position_eq_run (st : Settings) (now : Int) (cache : Cache)
    (p : ClosePayload) (env : CloseEnv) :
    close_position st now cache p env
      = runIdempotent now cache p.idempotencyKey (closeCore st p env) := by
  unfold close_position runIdempotent
  cases hg : idempotency_get now cache p.idempotencyKey with
  | mk o c1 =>
    cases o with
    | some ex => rfl
    | none =>
      cases hc : closeCore st p env with
      | mk res tr => cases res <;> rfl

/-- Equation: `cancel_order` is the idempotency wrapper around `cancelCore`. -/
theorem cancel_order_eq_run (st : Settings) (now : Int) (cache : Cache)
    (p : CancelPayload) (remote : Except String String) :
    cancel_order st now cache p remote
      = runIdempotent now cache p.idempotencyKey (cancelCore st p remote) := by
  unfold cancel_order runIdempotent
  cases hg : idempotency_get now cache p.idempotencyKey with
  | mk o c1 =>
    cases o with
    | some ex => rfl
    | none =>
      cases hc : cancelCore st p remote with
      | mk res tr => cases res <;> rfl

/-- Behavior of the shared idempotency wrapper on a fresh key: a failed core
stores nothing; a successful core ran for real, wrote exactly its result
under the key, and every later wrapped call with the same key within the TTL
replays that result with an empty trace, leaving the cache unchanged. -/
theorem runIdempotent_props (t1 t2 : Int) (c0 : Cache) (k : String) (hk : k ≠ "")
    (h0 : c0 k = none)
    (core1 : Except OstiumServiceError RespVal × List RemoteCall) :
    (∀ (e : OstiumServiceError) (c' : Cache) (tr : List RemoteCall),
      runIdempotent t1 c0 (some k) core1 = ⟨.error e, c', tr⟩ → c' k = none)
    ∧ (∀ (r : RespVal) (c1 : Cache) (tr1 : List RemoteCall),
      runIdempotent t1 c0 (some k) core1 = ⟨.ok r, c1, tr1⟩ →
      core1 = (.ok r, tr1)
      ∧ c1 = idempotency_set t1 c0 (some k) r
      ∧ ∀ (key2 : Option String)
          (core2 : Except OstiumServiceError RespVal × List RemoteCall),
          key2 = some k → t2 - t1 ≤ 3600 →
          runIdempotent t2 c1 key2 core2 = ⟨.ok r, c1, []⟩) := by
  have hget : idempotency_get t1 c0 (some k) = (none, c0) := by
    unfold idempotency_get
    simp [hk, h0]
  constructor
  · intro e c' tr h
    unfold runIdempotent at h
    rw [hget] at h
    simp only at h
    cases hc : core1 with
    | mk res trc =>
      rw [hc] at h
      cases res with
      | error e2 =>
        simp only at h
        cases h
        exact h0
      | ok r2 => simp only at h; simp at h
  · intro r c1 tr1 h
    unfold runIdempotent at h
    rw [hget] at h
    simp only at h
    cases hc : core1 with
    | mk res trc =>
      rw [hc] at h
      cases res with
      | error e2 => simp only at h; simp at h
      | ok r2 =>
        simp only at h
        injection h with hA hB hC
        injection hA with hA2
        subst hA2
        subst hB
        subst hC
        refine ⟨rfl, rfl, ?_⟩
        intro key2 core2 hkey2 htt
        subst hkey2
        have hlook : (idempotency_set t1 c0 (some k) r2) k = some (t1, r2) := by
          unfold idempotency_set cacheInsert
          simp [hk]
        have hget2 : idempotency_get t2 (idempotency_set t1 c0 (some k) r2) (some k)
            = (some r2, idempotency_set t1 c0 (some k) r2) := by
          unfold idempotency_get
          simp only [hk, if_false, hlook]
          rw [if_neg (by omega)]
        unfold runIdempotent
        rw [hget2]

/-- A successful `closeCore` run performs exactly one trade submission. -/
theorem closeCore_ok_submit_count (st : Settings) (p : ClosePayload) (env : CloseEnv)
    (r : RespVal) (tr : List RemoteCall)
    (h : closeCore st p env = (.ok r, tr)) :
    tr.countP RemoteCall.isSubmit = 1 := by
  unfold closeCore at h
  cases hdk : ensure_delegate_key st with
  | error e => rw [hdk] at h; simp at h
  | ok dk =>
    rw [hdk] at h
    simp only at h
    cases hb : build_sdk st p.network with
    | error e => rw [hb] at h; simp at h
    | ok u =>
      cases u
      rw [hb] at h
      simp only at h
      have hB := resolve_pair_symbol_no_submit st p.network p.pairId env.fetchSym
      cases hsym : resolve_pair_symbol st p.network p.pairId env.fetchSym with
      | mk res2 trS =>
        rw [hsym] at h hB
        simp only at hB
        cases res2 with
        | error e => simp at h
        | ok osym =>
          cases osym with
          | none => simp at h
          | some sym =>
            simp only at h
            have hC := get_price_no_submit st p.network sym "USD" env.price
            cases hgp : get_price st p.network sym "USD" env.price with
            | mk res3 trP =>
              rw [hgp] at h hC
              simp only at hC
              cases res3 with
              | error e => simp at h
              | ok pd =>
                simp only at h
                cases hpd : pd.price with
                | none => rw [hpd] at h; simp at h
                | some mp =>
                  rw [hpd] at h
                  simp only at h
                  cases hct : env.closeTrade with
                  | error m => rw [hct] at h; simp at h
                  | ok result =>
                    rw [hct] at h
                    simp only at h
                    have htr := congrArg Prod.snd h
                    simp only at htr
                    rw [← htr]
                    simp [List.countP_append, List.countP_cons, RemoteCall.isSubmit,
                      hB, hC]

/-- A successful `cancelCore` run performs exactly one trade submission. -/
theorem cancelCore_ok_submit_count (st : Settings) (p : CancelPayload)
    (remote : Except String String) (r : RespVal) (tr : List RemoteCall)
    (h : cancelCore st p remote = (.ok r, tr)) :
    tr.countP RemoteCall.isSubmit = 1 := by
  unfold cancelCore at h
  cases hdk : ensure_delegate_key st with
  | error e => rw [hdk] at h; simp at h
  | ok dk =>
    rw [hdk] at h
    simp only at h
    cases hb : build_sdk st p.network with
    | error e => rw [hb] at h; simp at h
    | ok u =>
      cases u
      rw [hb] at h
      simp only at h
      cases hr : remote with
      | error m => rw [hr] at h; simp at h
      | ok result =>
        rw [hr] at h
        simp only at h
        have htr := congrArg Prod.snd h
        simp only at htr
        rw [← htr]
        rfl

/-- C2: for each cache-consulting mutation (`open_position`, `close_position`
and `cancel_order`), for a pair of calls with the same present (fresh)
idempotency key where the first succeeds: the first call performs exactly one
remote mutating submission; a second call arriving within the 3600-second TTL
returns the identical payload, leaves the cache unchanged and performs no
remote call at all; and if the first call fails, nothing is stored under the
key. -/
theorem C2_idempotent_replay (st : Settings) (t1 t2 : Int) (c0 : Cache) (k : String)
    (hk : k ≠ "") (h0 : c0 k = none) :
    (∀ (p : OpenPayload) (env1 : OpenEnv), p.idempotencyKey = some k →
      (∀ (e : OstiumServiceError) (c' : Cache) (tr : List RemoteCall),
        open_position st t1 c0 p env1 = ⟨.error e, c', tr⟩ → c' k = none)
      ∧ (∀ (r : RespVal) (c1 : Cache) (tr1 : List RemoteCall),
        open_position st t1 c0 p env1 = ⟨.ok r, c1, tr1⟩ →
        tr1.countP RemoteCall.isSubmit = 1
        ∧ ∀ (p2 : OpenPayload) (env2 : OpenEnv), p2.idempotencyKey = some k →
            t2 - t1 ≤ 3600 →
            open_position st t2 c1 p2 env2 = ⟨.ok r, c1, []⟩))
    ∧ (∀ (p : ClosePayload) (env1 : CloseEnv), p.idempotencyKey = some k →
      (∀ (e : OstiumServiceError) (c' : Cache) (tr : List RemoteCall),
        close_position st t1 c0 p env1 = ⟨.error e, c', tr⟩ → c' k = none)
      ∧ (∀ (r : RespVal) (c1 : Cache) (tr1 : List RemoteCall),
        close_position st t1 c0 p env1 = ⟨.ok r, c1, tr1⟩ →
        tr1.countP RemoteCall.isSubmit = 1
        ∧ ∀ (p2 : ClosePayload) (env2 : CloseEnv), p2.idempotencyKey = some k →
            t2 - t1 ≤ 3600 →
            close_position st t2 c1 p2 env2 = ⟨.ok r, c1, []⟩))
    ∧ (∀ (p : CancelPayload) (remote1 : Except String String), p.idempotencyKey = some k →
      (∀ (e : OstiumServiceError) (c' : Cache) (tr : List RemoteCall),
        cancel_order st t1 c0 p remote1 = ⟨.error e, c', tr⟩ → c' k = none)
      ∧ (∀ (r : RespVal) (c1 : Cache) (tr1 : List RemoteCall),
        cancel_order st t1 c0 p remote1 = ⟨.ok r, c1, tr1⟩ →
        tr1.countP RemoteCall.isSubmit = 1
        ∧ ∀ (p2 : CancelPayload) (remote2 : Except String String),
            p2.idempotencyKey = some k → t2 - t1 ≤ 3600 →
            cancel_order st t2 c1 p2 remote2 = ⟨.ok r, c1, []⟩)) := by
  refine ⟨fun p env1 hp => ⟨fun e c' tr h => ?_, fun r c1 tr1 h => ?_⟩,
          fun p env1 hp => ⟨fun e c' tr h => ?_, fun r c1 tr1 h => ?_⟩,
          fun p remote1 hp => ⟨fun e c' tr h => ?_, fun r c1 tr1 h => ?_⟩⟩
  · rw [open_position_eq_run, hp] at h
    exact (runIdempotent_props t1 t2 c0 k hk h0 (openCore st p env1)).1 e c' tr h
  · rw [open_position_eq_run, hp] at h
    obtain ⟨hcore, hc1, hrep⟩ :=
      (runIdempotent_props t1 t2 c0 k hk h0 (openCore st p env1)).2 r c1 tr1 h
    refine ⟨openCore_ok_submit_count st p env1 r tr1 hcore, fun p2 env2 hp2 htt => ?_⟩
    rw [open_position_eq_run]
    exact hrep p2.idempotencyKey (openCore st p2 env2) hp2 htt
  · rw [close_position_eq_run, hp] at h
    exact (runIdempotent_props t1 t2 c0 k hk h0 (closeCore st p env1)).1 e c' tr h
  · rw [close_position_eq_run, hp] at h
    obtain ⟨hcore, hc1, hrep⟩ :=
      (runIdempotent_props t1 t2 c0 k hk h0 (closeCore st p env1)).2 r c1 tr1 h
    refine ⟨closeCore_ok_submit_count st p env1 r tr1 hcore, fun p2 env2 hp2 htt => ?_⟩
    rw [close_position_eq_run]
    exact hrep p2.idempotencyKey (closeCore st p2 env2) hp2 htt
  · rw [cancel_order_eq_run, hp] at h
    exact (runIdempotent_props t1 t2 c0 k hk h0 (cancelCore st p remote1)).1 e c' tr h
  · rw [cancel_order_eq_run, hp] at h
    obtain ⟨hcore, hc1, hrep⟩ :=
      (runIdempotent_props t1 t2 c0 k hk h0 (cancelCore st p remote1)).2 r c1 tr1 h
    refine ⟨cancelCore_ok_submit_count st p remote1 r tr1 hcore, fun p2 remote2 hp2 htt => ?_⟩
    rw [cancel_order_eq_run]
    exact hrep p2.idempotencyKey (cancelCore st p2 remote2) hp2 htt

/-- C2 witness: concrete successful first calls of all three operations
(each submitting exactly once), their replays at t = 3600 against
environments whose submission would fail (no resubmission: the cached
payload returns with an empty trace), and a failing first open-position call
that stores nothing under the key. -/
theorem C2_idempotent_replay_witness :
    ([RemoteCall.maxLeverage, .fetchPrimary, .getPrice, .performTrade 50000].countP
        RemoteCall.isSubmit = 1)
    ∧ open_position stOk 3600 (idempotency_set 0 emptyCache (some "k") openRespFix)
        pOpenK envOpenFail
      = ⟨.ok openRespFix, idempotency_set 0 emptyCache (some "k") openRespFix, []⟩
    ∧ ([RemoteCall.fetchPrimary, .getPrice, .closeTrade 50000].countP
        RemoteCall.isSubmit = 1)
    ∧ close_position stOk 3600 (idempotency_set 0 emptyCache (some "k") closeRespFix)
        pCloseK { envClose with closeTrade := .error "boom" }
      = ⟨.ok closeRespFix, idempotency_set 0 emptyCache (some "k") closeRespFix, []⟩
    ∧ ([RemoteCall.cancelOrder].countP RemoteCall.isSubmit = 1)
    ∧ cancel_order stOk 3600 (idempotency_set 0 emptyCache (some "k") cancelRespFix)
        pCancelK (.error "boom")
      = ⟨.ok cancelRespFix, idempotency_set 0 emptyCache (some "k") cancelRespFix, []⟩
    ∧ (open_position stOk 0 emptyCache pOpenK envOpenFail).cache "k" = none := by
  have hopen : open_position stOk 0 emptyCache pOpenK envOpen
      = ⟨.ok openRespFix, idempotency_set 0 emptyCache (some "k") openRespFix,
         [RemoteCall.maxLeverage, .fetchPrimary, .getPrice, .performTrade 50000]⟩ := rfl
  have hclose : close_position stOk 0 emptyCache pCloseK envClose
      = ⟨.ok closeRespFix, idempotency_set 0 emptyCache (some "k") closeRespFix,
         [RemoteCall.fetchPrimary, .getPrice, .closeTrade 50000]⟩ := rfl
  have hcancel : cancel_order stOk 0 emptyCache pCancelK (.ok "canceled")
      = ⟨.ok cancelRespFix, idempotency_set 0 emptyCache (some "k") cancelRespFix,
         [RemoteCall.cancelOrder]⟩ := rfl
  have hopenFail : open_position stOk 0 emptyCache pOpenK envOpenFail
      = ⟨.error (normalize_sdk_error "open_position" "OPEN_POSITION_FAILED"
            "Failed to open position" "boom"), emptyCache,
         [RemoteCall.maxLeverage, .fetchPrimary, .getPrice, .performTrade 50000]⟩ := rfl
  obtain ⟨hcount1, hrep1⟩ :=
    ((C2_idempotent_replay stOk 0 3600 emptyCache "k" (by decide) rfl).1
      pOpenK envOpen rfl).2 openRespFix _ _ hopen
  obtain ⟨hcount2, hrep2⟩ :=
    ((C2_idempotent_replay stOk 0 3600 emptyCache "k" (by decide) rfl).2.1
      pCloseK envClose rfl).2 closeRespFix _ _ hclose
  obtain ⟨hcount3, hrep3⟩ :=
    ((C2_idempotent_replay stOk 0 3600 emptyCache "k" (by decide) rfl).2.2
      pCancelK (.ok "canceled") rfl).2 cancelRespFix _ _ hcancel
  exact ⟨hcount1, hrep1 pOpenK envOpenFail rfl (by omega),
    hcount2, hrep2 pCloseK { envClose with closeTrade := .error "boom" } rfl (by omega),
    hcount3, hrep3 pCancelK (.error "boom") rfl (by omega),
    ((C2_idempotent_replay stOk 0 3600 emptyCache "k" (by decide) rfl).1
      pOpenK envOpenFail rfl).1 _ _ _ hopenFail⟩

/-- Shape of `openCore` once market resolution, configuration checks, the
best-effort leverage check and symbol resolution have succeeded: only the
price-or-trigger step and the submission remain. -/
theorem openCore_after_checks (st : Settings) (p : OpenPayload) (env : OpenEnv)
    (pid : Int) (tr1 : List RemoteCall)
    (hres : resolve_pair_id st p.network p.market env.fetch1 = (.ok pid, tr1))
    (dk : String) (hdk : ensure_delegate_key st = .ok dk)
    (hb : build_sdk st p.network = .ok ())
    (hlev : leverageCheck p.leverage env.maxLeverage = .ok ())
    (sym : String) (trS : List RemoteCall)
    (hsym : resolve_pair_symbol st p.network pid env.fetch2 = (.ok (some sym), trS)) :
    openCore st p env =
      (match price_or_trigger st p.network sym (upperStr p.orderType) p.triggerPrice
          env.price with
       | (.error e, trP) => (.error e, ((tr1 ++ [.maxLeverage]) ++ trS) ++ trP)
       | (.ok at_price, trP) =>
         match env.performTrade with
         | .error exc =>
           (.error (normalize_sdk_error "open_position" "OPEN_POSITION_FAILED"
              "Failed to open position" exc),
            ((tr1 ++ [.maxLeverage]) ++ trS) ++ trP ++ [.performTrade at_price])
         | .ok result =>
           (.ok (.openR { network := p.network, pairId := pid
                          orderType := upperStr p.orderType, triggerPrice := at_price
                          status := "submitted", result := result }),
            ((tr1 ++ [.maxLeverage]) ++ trS) ++ trP ++ [.performTrade at_price])) := by
  unfold openCore
  simp only [hres]
  rw [hdk]
  simp only
  rw [hb]
  simp only
  rw [hlev]
  simp only
  simp only [hsym]

/-- C3 counterexample: a limit order without a trigger price does fail with
`TRIGGER_PRICE_REQUIRED` and status 400 without submitting a trade — but the
error leaves `retryable` unset (`None`, i.e. unknown), not the non-retryable
(`False`) the claim asserts; likewise the market-order no-price failure
carries `retryable = None`, not `True`. -/
theorem C3_counterexample :
    (open_position stOk 0 emptyCache pLimitNoTrig envOpen).outcome
      = .error { code := "TRIGGER_PRICE_REQUIRED", message := "triggerPrice is required"
                 status_code := 400, retryable := none, details := none }
    ∧ (open_position stOk 0 emptyCache pLimitNoTrig envOpen).trace.countP
        RemoteCall.isSubmit = 0
    ∧ (none : Option Bool) ≠ some false
    ∧ (open_position stOk 0 emptyCache { pOpenK with idempotencyKey := none }
        { envOpen with price := .ok none }).outcome
      = .error { code := "PRICE_FETCH_FAILED", message := "Could not determine market price"
                 status_code := 502, retryable := none, details := none }
    ∧ (none : Option Bool) ≠ some true := by
  exact ⟨rfl, rfl, by decide, rfl, by decide⟩

/-- C3 (amended): for an open-position request that reaches the
price-or-trigger step: if orderType is market, the live price is fetched and
a fetch that raises fails with `PRICE_FETCH_FAILED` (502, retryable = true)
while a fetch returning no price fails with `PRICE_FETCH_FAILED` (502,
retryable unset); if orderType is limit or stop and no triggerPrice is
supplied, it fails with `TRIGGER_PRICE_REQUIRED` (400, retryable unset)
without submitting a trade; otherwise the caller-supplied trigger price is
used as the submission price. -/
theorem C3_price_or_trigger_behavior (st : Settings) (p : OpenPayload) (env : OpenEnv)
    (pid : Int) (tr1 : List RemoteCall)
    (hres : resolve_pair_id st p.network p.market env.fetch1 = (.ok pid, tr1))
    (dk : String) (hdk : ensure_delegate_key st = .ok dk)
    (hb : build_sdk st p.network = .ok ())
    (hlev : leverageCheck p.leverage env.maxLeverage = .ok ())
    (sym : String) (trS : List RemoteCall)
    (hsym : resolve_pair_symbol st p.network pid env.fetch2 = (.ok (some sym), trS)) :
    (upperStr p.orderType = "MARKET" → env.price = .ok none →
      openCore st p env =
        (.error { code := "PRICE_FETCH_FAILED", message := "Could not determine market price"
                  status_code := 502 },
         ((tr1 ++ [.maxLeverage]) ++ trS) ++ [.getPrice])
      ∧ (((tr1 ++ [RemoteCall.maxLeverage]) ++ trS) ++ [RemoteCall.getPrice]).countP
          RemoteCall.isSubmit = 0)
    ∧ (∀ m : String, upperStr p.orderType = "MARKET" → env.price = .error m →
      openCore st p env =
        (.error { code := "PRICE_FETCH_FAILED"
                  message := "Failed to fetch price for " ++ upperStr sym ++ "/"
                    ++ upperStr "USD"
                  status_code := 502, retryable := some true
                  details := some [("error", m)] },
         ((tr1 ++ [.maxLeverage]) ++ trS) ++ [.getPrice]))
    ∧ (upperStr p.orderType ≠ "MARKET" → p.triggerPrice = none →
      openCore st p env =
        (.error { code := "TRIGGER_PRICE_REQUIRED", message := "triggerPrice is required"
                  status_code := 400 },
         ((tr1 ++ [.maxLeverage]) ++ trS) ++ [])
      ∧ ((((tr1 ++ [RemoteCall.maxLeverage]) ++ trS) ++ []).countP
          RemoteCall.isSubmit = 0))
    ∧ (∀ (tp : Rat) (res : String), upperStr p.orderType ≠ "MARKET" →
      p.triggerPrice = some tp → env.performTrade = .ok res →
      openCore st p env =
        (.ok (.openR { network := p.network, pairId := pid
                       orderType := upperStr p.orderType, triggerPrice := tp
                       status := "submitted", result := res }),
         ((tr1 ++ [.maxLeverage]) ++ trS) ++ [] ++ [.performTrade tp])) := by
  have hspine := openCore_after_checks st p env pid tr1 hres dk hdk hb hlev sym trS hsym
  have hz1 : tr1.countP RemoteCall.isSubmit = 0 := by
    have := resolve_pair_id_no_submit st p.network p.market env.fetch1
    rw [hres] at this
    simpa using this
  have hz2 : trS.countP RemoteCall.isSubmit = 0 := by
    have := resolve_pair_symbol_no_submit st p.network pid env.fetch2
    rw [hsym] at this
    simpa using this
  refine ⟨fun hmkt hpr => ⟨?_, ?_⟩, fun m hmkt hpr => ?_, fun hmkt htp => ⟨?_, ?_⟩,
          fun tp res hmkt htp hperf => ?_⟩
  · have hpt : price_or_trigger st p.network sym (upperStr p.orderType) p.triggerPrice
        env.price =
        (.error { code := "PRICE_FETCH_FAILED", message := "Could not determine market price"
                  status_code := 502 }, [.getPrice]) := by
      unfold price_or_trigger get_price
      rw [hmkt, hb, hpr]
      simp
    rw [hspine, hpt]
  · simp [List.countP_append, hz1, hz2, RemoteCall.isSubmit]
  · have hpt : price_or_trigger st p.network sym (upperStr p.orderType) p.triggerPrice
        env.price =
        (.error { code := "PRICE_FETCH_FAILED"
                  message := "Failed to fetch price for " ++ upperStr sym ++ "/"
                    ++ upperStr "USD"
                  status_code := 502, retryable := some true
                  details := some [("error", m)] }, [.getPrice]) := by
      unfold price_or_trigger get_price
      rw [hmkt, hb, hpr]
      rfl
    rw [hspine, hpt]
  · have hpt : price_or_trigger st p.network sym (upperStr p.orderType) p.triggerPrice
        env.price =
        (.error { code := "TRIGGER_PRICE_REQUIRED", message := "triggerPrice is required"
                  status_code := 400 }, []) := by
      unfold price_or_trigger
      rw [if_neg hmkt, htp]
    rw [hspine, hpt]
  · simp [List.countP_append, hz1, hz2, RemoteCall.isSubmit]
  · have hpt : price_or_trigger st p.network sym (upperStr p.orderType) p.triggerPrice
        env.price = (.ok tp, []) := by
      unfold price_or_trigger
      rw [if_neg hmkt, htp]
    rw [hspine, hpt]
    simp only [hperf]

/-- C3 witness: against the concrete environment: a market order whose price
fetch returns no price fails with `PRICE_FETCH_FAILED` 502; a limit order
without trigger price fails with `TRIGGER_PRICE_REQUIRED` 400 and no
submission; a limit order with trigger price 123 submits at exactly 123. -/
theorem C3_price_or_trigger_behavior_witness :
    openCore stOk pOpenK { envOpen with price := .ok none }
      = (.error { code := "PRICE_FETCH_FAILED", message := "Could not determine market price"
                  status_code := 502 },
         (([] ++ [RemoteCall.maxLeverage]) ++ [RemoteCall.fetchPrimary])
           ++ [RemoteCall.getPrice])
    ∧ openCore stOk pLimitNoTrig envOpen
      = (.error { code := "TRIGGER_PRICE_REQUIRED", message := "triggerPrice is required"
                  status_code := 400 },
         (([] ++ [RemoteCall.maxLeverage]) ++ [RemoteCall.fetchPrimary]) ++ [])
    ∧ openCore stOk { pLimitNoTrig with triggerPrice := some 123 } envOpen
      = (.ok (.openR { network := "testnet", pairId := 1, orderType := "LIMIT"
                       triggerPrice := 123, status := "submitted", result := "tx" }),
         (([] ++ [RemoteCall.maxLeverage]) ++ [RemoteCall.fetchPrimary]) ++ []
           ++ [.performTrade 123]) :=
  ⟨((C3_price_or_trigger_behavior stOk pOpenK { envOpen with price := .ok none }
      1 [] rfl "dk" rfl rfl rfl "BTC" [RemoteCall.fetchPrimary] rfl).1
      (by decide) rfl).1,
   ((C3_price_or_trigger_behavior stOk pLimitNoTrig envOpen
      1 [] rfl "dk" rfl rfl rfl "BTC" [RemoteCall.fetchPrimary] rfl).2.2.1
      (by decide) rfl).1,
   (C3_price_or_trigger_behavior stOk { pLimitNoTrig with triggerPrice := some 123 } envOpen
      1 [] rfl "dk" rfl rfl rfl "BTC" [RemoteCall.fetchPrimary] rfl).2.2.2
      123 "tx" (by decide) rfl rfl⟩

end OstiumService






